import Mathlib

/-!
# Verification of the battle-royale session server

This development is a shallow embedding of the authoritative multiplayer
session server of the repository (a WebSocket battle-royale game) together
with its client-side collision utilities, and proofs about the embedded
code.

Sources embedded here:
* `src/unnamed/part_000` — the full server variant (namespace `Srv0`):
  connection handling with roster snapshot, `playerUpdate`, `respawn` with
  accept/reject replies, `attack`, `projectileHit`, `requestMapData`,
  `ping`, disconnect handling, `startGame`, `endGame`,
  `startShrinkingPlayArea` (the shrink-timer tick), `applyDamage`,
  `playerDied`, `determineWinner`.
* `src/unnamed/part_001` — the older/shorter server variant (namespace
  `Srv1`): connection handling with `init` message and the two-player
  start trigger, `updatePosition`, `attack`, `respawn`, disconnect
  handling, `startGame`, `endGame`, the shrink tick, `applyDamage`,
  `playerDied`, `determineWinner`.
* `src/british-gang-shooter/src/utils/input.js` — the pure collision
  predicates `isPositionInBuilding` and `checkCollision` (namespace
  `Client`).

Modelling conventions:
* JavaScript numbers are modelled as exact rationals (`ℚ`).  The only
  float-sensitive computation relevant to the claims is
  `currentAreaSize *= 0.9` and the comparisons against it; the claims
  settled here are robust to this idealisation.
* Nondeterministic inputs (`uuid()`, `Math.random()` spawn positions,
  `Date.now()`) are passed to the transition functions as explicit
  arguments.
* The roster `players` (a JS `Map`, which iterates in insertion order) is
  modelled as a `List Player` with unique ids; `Map.set` replaces an
  existing key in place and otherwise appends, `Map.delete` filters, and
  `Map.forEach` is a fold in list order.
* Every outbound `socket.send` / `broadcastToAll` is recorded as an
  element of an output list `List Out`; `Out.dest` records whether the
  message went to all sockets, to all sockets except one player's, or to
  one player's socket.  The randomly generated `mapData` payload is not
  modelled (no claim concerns its contents); messages that carry it in the
  source (`playerConnected`, `gameStarted`, `mapData`) simply omit that
  field here.
* `part_000` creates players without a `score` field, so `killer.score
  += 1` yields `NaN` there; `part_001` initialises `score: 0`.  The score
  is therefore an `Option ℚ` with `none` standing for
  undefined-or-`NaN` (which JavaScript never turns back into a number).
* The spec's phases map to the code as: `Idle` = `gameInProgress ==
  false`, `Running` = `gameInProgress == true`; the spec's transient
  `Ending` phase is not materialised in the code.  The number of
  currently scheduled `setInterval` shrink timers is tracked in the field
  `timers`; `setInterval` increments it and `clearInterval` decrements it.
-/

set_option allowUnsafeReducibility true

attribute [semireducible] Rat.add Rat.sub Rat.mul Rat.div Rat.inv

/-- 3-component vector, the server's `Vector3` (`x`, `y`, `z`). -/
structure Vec3 where
  x : ℚ
  y : ℚ
  z : ℚ
deriving DecidableEq, Repr

/-- The `sourceId` of a damage event: either another player's id or the
sentinel string `'zone'`. -/
inductive Source where
  | player (id : ℕ)
  | zone
deriving DecidableEq, Repr

/-- A roster entry, as created in the `wss.on('connection')` handlers.
Player ids (uuids in the source) are modelled as naturals.  `score` is
`none` for `part_000` players (the field is absent there, and stays
"not a number" after `+= 1`). -/
structure Player where
  id : ℕ
  position : Vec3
  rotation : ℚ
  health : ℚ
  weapon : ℕ
  score : Option ℚ
  isAlive : Bool
deriving DecidableEq, Repr

/-- The per-player record sent inside `part_000`'s `playerConnected`
roster snapshot (id, position, rotation, health, weapon, isAlive — no
score field). -/
structure PlayerSnap where
  id : ℕ
  position : Vec3
  rotation : ℚ
  health : ℚ
  weapon : ℕ
  isAlive : Bool
deriving DecidableEq, Repr

/-- Snapshot projection used by `part_000`'s connect handler. -/
def snapOf (p : Player) : PlayerSnap :=
  { id := p.id, position := p.position, rotation := p.rotation,
    health := p.health, weapon := p.weapon, isAlive := p.isAlive }

/-- Outbound wire messages (the tagged-union event model), covering both
server variants.  Unmodelled map payloads are omitted. -/
inductive Msg where
  | playerConnected (id : ℕ) (gameInProgress : Bool) (snapshot : List PlayerSnap)
  | initMsg (playerId : ℕ) (players : List Player) (gameInProgress : Bool)
      (gameStartTime : Option ℤ) (areaSize : ℚ)
  | playerJoined (id : ℕ) (position : Vec3) (rotation : ℚ) (health : ℚ) (weapon : ℕ)
  | playerJoinedFull (player : Player)
  | playerLeft (id : ℕ)
  | playerMoved (id : ℕ) (position : Vec3) (rotation : ℚ)
  | playerDamaged (id : ℕ) (health : ℚ) (source : Source)
  | playerDied (id : ℕ) (killerId : Source)
  | scoreUpdated (id : ℕ) (score : Option ℚ)
  | projectileFired (id : ℕ) (origin : Vec3) (direction : Vec3) (weapon : ℕ)
  | gameStarted (startTime : ℤ)
  | gameEnded
  | areaShrank (newSize : ℚ)
  | zoneDamage (damage : ℚ)
  | gameWon (winnerId : ℕ) (winnerScore : Option ℚ)
  | gameDraw
  | respawnAccepted (position : Vec3)
  | respawnRejected (reason : String)
  | playerRespawnedFull (id : ℕ) (position : Vec3) (rotation : ℚ) (health : ℚ) (weapon : ℕ)
  | playerRespawnedBrief (id : ℕ) (position : Vec3)
  | mapDataMsg
  | pong
deriving DecidableEq, Repr

/-- Where an outbound message is delivered: `broadcastToAll` with no
exclusion, `broadcastToAll` with an excluded player id, or a direct
`socket.send` to one player's socket. -/
inductive Dest where
  | all
  | allExcept (id : ℕ)
  | to (id : ℕ)
deriving DecidableEq, Repr

/-- One observable output: a message together with its destination. -/
structure Out where
  dest : Dest
  msg : Msg
deriving DecidableEq, Repr

/-- Process-wide mutable server state shared by both variants:
`players`, `gameInProgress`, `gameStartTime`, `currentAreaSize`, plus the
count of currently scheduled shrink `setInterval` timers. -/
structure ServerState where
  players : List Player
  gameInProgress : Bool
  gameStartTime : Option ℤ
  currentAreaSize : ℚ
  timers : ℕ
deriving DecidableEq, Repr

/-- `STARTING_AREA_SIZE = 100` (both variants). -/
def STARTING_AREA_SIZE : ℚ := 100

/-- `MAX_PLAYERS = 10` (declared in both variants; never read by any
handler in either). -/
def MAX_PLAYERS : ℕ := 10

/-- Initial state: empty roster, `gameInProgress = false`,
`gameStartTime = null`, `currentAreaSize = STARTING_AREA_SIZE`, no
timer scheduled. -/
def initState : ServerState :=
  { players := [], gameInProgress := false, gameStartTime := none,
    currentAreaSize := STARTING_AREA_SIZE, timers := 0 }

/-- `players.get(id)` / `players.has(id)` lookup. -/
def findP (ps : List Player) (pid : ℕ) : Option Player :=
  ps.find? (fun p => p.id == pid)

/-- In-place mutation of the entry with key `pid` (JS mutates the stored
object, keeping Map insertion order). -/
def updateP (ps : List Player) (pid : ℕ) (f : Player → Player) : List Player :=
  ps.map (fun p => if p.id = pid then f p else p)

/-- `players.set(p.id, p)`: replace in place when the key exists,
append otherwise. -/
def setP (ps : List Player) (p : Player) : List Player :=
  if ps.any (fun q => q.id == p.id) then updateP ps p.id (fun _ => p)
  else ps ++ [p]

/-- `players.delete(pid)`. -/
def removeP (ps : List Player) (pid : ℕ) : List Player :=
  ps.filter (fun p => p.id ≠ pid)

/-- `getAlivePlayers()` (identical in both variants). -/
def getAlivePlayers (s : ServerState) : List Player :=
  s.players.filter (fun p => p.isAlive)

/-- `determineWinner()` (identical in both variants): broadcast `gameWon`
with the single alive player, else `gameDraw`.  Pure output, no state
change. -/
def determineWinner (s : ServerState) : List Out :=
  match getAlivePlayers s with
  | [w] => [⟨Dest.all, Msg.gameWon w.id w.score⟩]
  | _ => [⟨Dest.all, Msg.gameDraw⟩]

/-- The melee weapon damage table `[10, 25, 30, 40]` (fists, knife,
baseball bat, gun), identical in both variants.  Indices above 3 would
throw in JS but are unreachable: the server only ever assigns weapon 0. -/
def weaponDamage (w : ℕ) : ℚ :=
  match w with
  | 0 => 10
  | 1 => 25
  | 2 => 30
  | 3 => 40
  | _ => 0

/-- `killer.score += 1`.  `some n ↦ some (n+1)`; `none` (absent field /
NaN, the `part_000` case) stays `none`. -/
def incScore (sc : Option ℚ) : Option ℚ :=
  match sc with
  | none => none
  | some n => some (n + 1)

/-- The tick's zone test `Math.sqrt(x*x + z*z) > currentAreaSize / 2`,
expressed over `ℚ`: since `Real.sqrt d ≥ 0`, the comparison is `true`
whenever the right-hand side is negative, and otherwise equivalent to
comparing squares (`sqrt` is monotone); `distGtHalf_iff_sqrt` below
proves this embedding faithful. -/
def distGtHalf (x z s : ℚ) : Bool :=
  if s < 0 then true else decide ((s / 2) ^ 2 < x ^ 2 + z ^ 2)

namespace Client

/-- An obstacle as used by the client collision helpers: a center
`position` and a `size` vector whose halves are the half-extents
(`size.y` is the height, unused by the 2D tests). -/
structure Obstacle where
  position : Vec3
  size : Vec3
deriving DecidableEq, Repr

/-- The loop body of `isPositionInBuilding`
(`src/british-gang-shooter/src/utils/input.js`, lines 96-111): strict
comparisons against `position ± size/2` on the x and z axes. -/
def insideObstacle (position : Vec3) (obstacle : Obstacle) : Bool :=
  let hx := obstacle.size.x * (1 / 2)
  let hz := obstacle.size.z * (1 / 2)
  decide (position.x > obstacle.position.x - hx) &&
  decide (position.x < obstacle.position.x + hx) &&
  decide (position.z > obstacle.position.z - hz) &&
  decide (position.z < obstacle.position.z + hz)

/-- `isPositionInBuilding(position, obstacles)`: return `true` on the
first obstacle whose box (strictly) contains the point, else `false`. -/
def isPositionInBuilding (position : Vec3) (obstacles : List Obstacle) : Bool :=
  obstacles.any (insideObstacle position)

/-- The loop body of `checkCollision` (same file, lines 114-139):
AABB overlap between the moving entity's `size/2`-inflated footprint and
the obstacle's half-extent footprint, strict comparisons. -/
def overlapsObstacle (position : Vec3) (size : ℚ) (obstacle : Obstacle) : Bool :=
  let hx := obstacle.size.x * (1 / 2)
  let hz := obstacle.size.z * (1 / 2)
  decide (position.x + size / 2 > obstacle.position.x - hx) &&
  decide (position.x - size / 2 < obstacle.position.x + hx) &&
  decide (position.z + size / 2 > obstacle.position.z - hz) &&
  decide (position.z - size / 2 < obstacle.position.z + hz)

/-- `checkCollision(position, size, obstacles)`: `true` if any obstacle
overlaps, else `true` if the position is out of the `[-50, 50]` world
bounds on x or z, else `false`. -/
def checkCollision (position : Vec3) (size : ℚ) (obstacles : List Obstacle) : Bool :=
  if obstacles.any (overlapsObstacle position size) then true
  else if position.x < -50 ∨ position.x > 50 ∨ position.z < -50 ∨ position.z > 50 then true
  else false

end Client

namespace Srv0

/-!
Embedding of the server in `src/unnamed/part_000`.  In this file
`startGame`/`startShrinkingPlayArea` are defined but `startGame` has no
caller: no handler ever starts a round, so the reachable-state relation
`Reachable` below has no tick event (no shrink interval is ever
scheduled) and `gameInProgress` can never become true.  The functions are
still embedded in full, and the claims about mid-round behaviour are
evaluated on them directly.
-/

/-- `endGame()` (lines 314-331): clear the in-progress flag and start
time, reset `currentAreaSize`, broadcast `gameEnded`.  (The trailing
`players.forEach` loop has an empty body.) -/
def endGame (s : ServerState) : ServerState × List Out :=
  ({ s with gameInProgress := false, gameStartTime := none,
            currentAreaSize := STARTING_AREA_SIZE },
   [⟨Dest.all, Msg.gameEnded⟩])

/-- `playerDied(playerId, killerId)` (lines 458-490): mark the victim
not-alive; if the killer is a roster player (not `'zone'`), bump its
score and broadcast `scoreUpdated`; broadcast `playerDied`; then, if a
round is in progress and at most one player remains alive, broadcast the
winner and end the game. -/
def playerDied (s : ServerState) (pid : ℕ) (killer : Source) : ServerState × List Out :=
  let s1 : ServerState :=
    { s with players := updateP s.players pid (fun q => { q with isAlive := false }) }
  let scored : ServerState × List Out :=
    match killer with
    | Source.zone => (s1, [])
    | Source.player kid =>
      match findP s1.players kid with
      | none => (s1, [])
      | some k =>
        ({ s1 with players := updateP s1.players kid (fun q => { q with score := incScore q.score }) },
         [⟨Dest.all, Msg.scoreUpdated kid (incScore k.score)⟩])
  let s2 := scored.1
  let deathOut : List Out := [⟨Dest.all, Msg.playerDied pid killer⟩]
  if s2.gameInProgress = true ∧ (getAlivePlayers s2).length ≤ 1 then
    let winnerOut := determineWinner s2
    let ended := endGame s2
    (ended.1, scored.2 ++ deathOut ++ winnerOut ++ ended.2)
  else
    (s2, scored.2 ++ deathOut)

/-- `applyDamage(playerId, amount, sourceId)` (lines 437-455): no-op for
unknown ids; subtract the amount from health with no clamping; broadcast
`playerDamaged` carrying the resulting (possibly negative) health; if the
player just dropped to `health <= 0` while alive, run `playerDied`. -/
def applyDamage (s : ServerState) (pid : ℕ) (amount : ℚ) (src : Source) :
    ServerState × List Out :=
  match findP s.players pid with
  | none => (s, [])
  | some p =>
    let newHealth := p.health - amount
    let s1 : ServerState :=
      { s with players := updateP s.players pid (fun q => { q with health := q.health - amount }) }
    let dmgOut : List Out := [⟨Dest.all, Msg.playerDamaged pid newHealth src⟩]
    if newHealth ≤ 0 ∧ p.isAlive = true then
      let died := playerDied s1 pid src
      (died.1, dmgOut ++ died.2)
    else
      (s1, dmgOut)

/-- `handleAttack(attackerId, data)` (lines 387-420): silently drop
unless the attacker is a living roster player; re-broadcast projectile
attacks to everyone; resolve melee attacks against a living roster target
through the weapon damage table. -/
def handleAttack (s : ServerState) (attackerId : ℕ) (projectile : Bool)
    (origin direction : Vec3) (targetId : Option ℕ) : ServerState × List Out :=
  match findP s.players attackerId with
  | none => (s, [])
  | some attacker =>
    if attacker.isAlive = false then (s, [])
    else if projectile then
      (s, [⟨Dest.all, Msg.projectileFired attackerId origin direction attacker.weapon⟩])
    else
      match targetId with
      | none => (s, [])
      | some tid =>
        match findP s.players tid with
        | none => (s, [])
        | some target =>
          if target.isAlive = true then
            applyDamage s tid (weaponDamage attacker.weapon) (Source.player attackerId)
          else (s, [])

/-- `handleProjectileHit(attackerId, data)` (lines 423-434): the server
trusts the reporting client's target id and damage amount; both attacker
and target must be living roster players. -/
def handleProjectileHit (s : ServerState) (attackerId : ℕ) (targetId : Option ℕ)
    (damage : ℚ) : ServerState × List Out :=
  match findP s.players attackerId with
  | none => (s, [])
  | some attacker =>
    match targetId with
    | none => (s, [])
    | some tid =>
      if attacker.isAlive = false then (s, [])
      else
        match findP s.players tid with
        | none => (s, [])
        | some target =>
          if target.isAlive = true then
            applyDamage s tid damage (Source.player attackerId)
          else (s, [])

/-- Inbound client messages handled by `part_000`'s message switch. -/
inductive ClientMsg where
  | playerUpdate (position : Vec3) (rotation : ℚ)
  | respawn (newPos : Vec3)
  | attack (projectile : Bool) (origin direction : Vec3) (targetId : Option ℕ)
  | projectileHit (targetId : Option ℕ) (damage : ℚ)
  | requestMapData
  | ping
deriving DecidableEq, Repr

/-- The `socket.on('message')` switch (lines 164-261).  `playerUpdate`
(lines 169-193) stores position/rotation and broadcasts `playerMoved`
excluding the sender, but only for living roster players — updates from
dead players are silently dropped.  `respawn` (lines 195-231) resets the
player and replies `respawnAccepted` when no game is in progress, and
replies `respawnRejected` with a reason string otherwise. -/
def handleMessage (s : ServerState) (pid : ℕ) (m : ClientMsg) : ServerState × List Out :=
  match m with
  | ClientMsg.playerUpdate pos rot =>
    match findP s.players pid with
    | none => (s, [])
    | some p =>
      if p.isAlive = true then
        let moved := updateP s.players pid (fun q => { q with position := pos, rotation := rot })
        ({ s with players := moved },
         [⟨Dest.allExcept pid, Msg.playerMoved pid pos rot⟩])
      else (s, [])
  | ClientMsg.respawn newPos =>
    match findP s.players pid with
    | none => (s, [])
    | some p =>
      if s.gameInProgress = false then
        let reset := updateP s.players pid
          (fun q => { q with isAlive := true, health := 100, position := newPos, weapon := 0 })
        ({ s with players := reset },
         [⟨Dest.to pid, Msg.respawnAccepted newPos⟩,
          ⟨Dest.allExcept pid, Msg.playerRespawnedFull pid newPos p.rotation 100 0⟩])
      else
        (s, [⟨Dest.to pid, Msg.respawnRejected "Cannot respawn during active game round"⟩])
  | ClientMsg.attack projectile origin direction targetId =>
    handleAttack s pid projectile origin direction targetId
  | ClientMsg.projectileHit targetId damage =>
    handleProjectileHit s pid targetId damage
  | ClientMsg.requestMapData => (s, [⟨Dest.to pid, Msg.mapDataMsg⟩])
  | ClientMsg.ping => (s, [⟨Dest.to pid, Msg.pong⟩])

/-- The `wss.on('connection')` body (lines 121-161): insert a fresh
player (alive, health 100, weapon 0, no score field), send the
`playerConnected` snapshot of the whole roster to the new socket, and
broadcast `playerJoined` to everyone else.  No capacity check is
performed and no game start is triggered. -/
def connect (s : ServerState) (pid : ℕ) (spawn : Vec3) : ServerState × List Out :=
  let p : Player :=
    { id := pid, position := spawn, rotation := 0, health := 100,
      weapon := 0, score := none, isAlive := true }
  let s1 : ServerState := { s with players := setP s.players p }
  ((s1),
   [⟨Dest.to pid, Msg.playerConnected pid s1.gameInProgress (s1.players.map snapOf)⟩,
    ⟨Dest.allExcept pid, Msg.playerJoined pid p.position p.rotation p.health p.weapon⟩])

/-- The `socket.on('close')` handler (lines 264-285): remove the player,
broadcast `playerLeft`, and — if a game is in progress and at most one
player remains alive — broadcast the winner.  Note: the game is *not*
ended here (no `endGame`, no timer cancellation). -/
def close (s : ServerState) (pid : ℕ) : ServerState × List Out :=
  match findP s.players pid with
  | none => (s, [])
  | some _ =>
    let s1 : ServerState := { s with players := removeP s.players pid }
    let leftOut : List Out := [⟨Dest.all, Msg.playerLeft pid⟩]
    if s1.gameInProgress = true ∧ (getAlivePlayers s1).length ≤ 1 then
      (s1, leftOut ++ determineWinner s1)
    else
      (s1, leftOut)

/-- `startGame()` (lines 292-311): set the in-progress flag, record the
start time, reset the area size, broadcast `gameStarted` (with map data,
unmodelled), and schedule the shrink interval.  Dead code in `part_000`:
nothing ever calls it. -/
def startGame (s : ServerState) (now : ℤ) : ServerState × List Out :=
  ({ s with gameInProgress := true, gameStartTime := some now,
            currentAreaSize := STARTING_AREA_SIZE, timers := s.timers + 1 },
   [⟨Dest.all, Msg.gameStarted now⟩])

/-- One `players.forEach` step of the shrink tick (lines 353-375): a
living player whose planar distance from the center exceeds
`currentAreaSize / 2` takes 5 damage from source `'zone'` and is sent a
`zoneDamage` message. -/
def zoneStep (s : ServerState) (pid : ℕ) : ServerState × List Out :=
  match findP s.players pid with
  | none => (s, [])
  | some p =>
    if p.isAlive = true then
      if distGtHalf p.position.x p.position.z s.currentAreaSize then
        let dmg := applyDamage s pid 5 Source.zone
        (dmg.1, dmg.2 ++ [⟨Dest.to pid, Msg.zoneDamage 5⟩])
      else (s, [])
    else (s, [])

/-- The `forEach` over the roster, in Map (insertion) order. -/
def zoneLoop (s : ServerState) (ids : List ℕ) : ServerState × List Out :=
  match ids with
  | [] => (s, [])
  | pid :: rest =>
    let step := zoneStep s pid
    let restRun := zoneLoop step.1 rest
    (restRun.1, step.2 ++ restRun.2)

/-- One firing of the `setInterval` callback of
`startShrinkingPlayArea()` (lines 334-384): if no game is in progress the
interval cancels itself; otherwise multiply `currentAreaSize` by 0.9,
broadcast `areaShrank`, damage every living player outside half the new
size, and finally — if the area dropped below 5 or at most one player is
alive — broadcast the winner, end the game and cancel the interval. -/
def tick (s : ServerState) : ServerState × List Out :=
  if s.gameInProgress = false then
    ({ s with timers := s.timers - 1 }, [])
  else
    let s1 : ServerState := { s with currentAreaSize := s.currentAreaSize * (9 / 10) }
    let shrinkOut : List Out := [⟨Dest.all, Msg.areaShrank s1.currentAreaSize⟩]
    let looped := zoneLoop s1 (s1.players.map (fun p => p.id))
    let s2 := looped.1
    if s2.currentAreaSize < 5 ∨ (getAlivePlayers s2).length ≤ 1 then
      let winnerOut := determineWinner s2
      let ended := endGame s2
      ({ ended.1 with timers := ended.1.timers - 1 },
       shrinkOut ++ looped.2 ++ winnerOut ++ ended.2)
    else
      (s2, shrinkOut ++ looped.2)

/-- Reachable states of the `part_000` server: the initial state, closed
under connections (with a fresh uuid), inbound messages and disconnects.
No tick event exists because `startGame` is never called in this file, so
no shrink interval is ever scheduled. -/
inductive Reachable : ServerState → Prop where
  | start : Reachable initState
  | connectStep (s : ServerState) (pid : ℕ) (spawn : Vec3) :
      Reachable s → pid ∉ s.players.map (fun p => p.id) →
      Reachable (connect s pid spawn).1
  | messageStep (s : ServerState) (pid : ℕ) (m : ClientMsg) :
      Reachable s → Reachable (handleMessage s pid m).1
  | closeStep (s : ServerState) (pid : ℕ) :
      Reachable s → Reachable (close s pid).1

end Srv0

namespace Srv1

/-!
Embedding of the server in `src/unnamed/part_001`.  This variant starts a
round as soon as the roster reaches 2 players, but its `endGame` does not
reset `currentAreaSize`, its `updatePosition` handler has no aliveness
check, and its `respawn` handler sends no reply.
-/

/-- `endGame()` (lines 170-178): clear the in-progress flag and broadcast
`gameEnded`.  Neither `gameStartTime` nor `currentAreaSize` is reset. -/
def endGame (s : ServerState) : ServerState × List Out :=
  ({ s with gameInProgress := false }, [⟨Dest.all, Msg.gameEnded⟩])

/-- `playerDied(playerId, killerId)` (lines 291-323): same as in
`part_000` except for this variant's `endGame`. -/
def playerDied (s : ServerState) (pid : ℕ) (killer : Source) : ServerState × List Out :=
  let s1 : ServerState :=
    { s with players := updateP s.players pid (fun q => { q with isAlive := false }) }
  let scored : ServerState × List Out :=
    match killer with
    | Source.zone => (s1, [])
    | Source.player kid =>
      match findP s1.players kid with
      | none => (s1, [])
      | some k =>
        ({ s1 with players := updateP s1.players kid (fun q => { q with score := incScore q.score }) },
         [⟨Dest.all, Msg.scoreUpdated kid (incScore k.score)⟩])
  let s2 := scored.1
  let deathOut : List Out := [⟨Dest.all, Msg.playerDied pid killer⟩]
  if s2.gameInProgress = true ∧ (getAlivePlayers s2).length ≤ 1 then
    let winnerOut := determineWinner s2
    let ended := endGame s2
    (ended.1, scored.2 ++ deathOut ++ winnerOut ++ ended.2)
  else
    (s2, scored.2 ++ deathOut)

/-- `applyDamage(playerId, amount, sourceId)` (lines 270-288): identical
to `part_000`'s (no clamping; raw health in the broadcast) except for
this variant's `playerDied`. -/
def applyDamage (s : ServerState) (pid : ℕ) (amount : ℚ) (src : Source) :
    ServerState × List Out :=
  match findP s.players pid with
  | none => (s, [])
  | some p =>
    let newHealth := p.health - amount
    let s1 : ServerState :=
      { s with players := updateP s.players pid (fun q => { q with health := q.health - amount }) }
    let dmgOut : List Out := [⟨Dest.all, Msg.playerDamaged pid newHealth src⟩]
    if newHealth ≤ 0 ∧ p.isAlive = true then
      let died := playerDied s1 pid src
      (died.1, dmgOut ++ died.2)
    else
      (s1, dmgOut)

/-- `handleAttack(attackerId, data)` (lines 234-267): identical dispatch
to `part_000`'s. -/
def handleAttack (s : ServerState) (attackerId : ℕ) (projectile : Bool)
    (origin direction : Vec3) (targetId : Option ℕ) : ServerState × List Out :=
  match findP s.players attackerId with
  | none => (s, [])
  | some attacker =>
    if attacker.isAlive = false then (s, [])
    else if projectile then
      (s, [⟨Dest.all, Msg.projectileFired attackerId origin direction attacker.weapon⟩])
    else
      match targetId with
      | none => (s, [])
      | some tid =>
        match findP s.players tid with
        | none => (s, [])
        | some target =>
          if target.isAlive = true then
            applyDamage s tid (weaponDamage attacker.weapon) (Source.player attackerId)
          else (s, [])

/-- Inbound client messages handled by `part_001`'s message switch
(there is no `projectileHit`, `requestMapData` or `ping` case). -/
inductive ClientMsg where
  | updatePosition (position : Vec3) (rotation : ℚ)
  | attack (projectile : Bool) (origin direction : Vec3) (targetId : Option ℕ)
  | respawn (newPos : Vec3)
deriving DecidableEq, Repr

/-- The `ws.on('message')` switch (lines 71-126).  `updatePosition`
(lines 76-91) stores position/rotation for *any* roster player — dead or
alive — and broadcasts `playerMoved` excluding the sender.  `respawn`
(lines 98-121) resets the player and broadcasts `playerRespawned` when no
game is in progress, and otherwise does nothing at all (no reply is sent
in either case). -/
def handleMessage (s : ServerState) (pid : ℕ) (m : ClientMsg) : ServerState × List Out :=
  match m with
  | ClientMsg.updatePosition pos rot =>
    match findP s.players pid with
    | none => (s, [])
    | some _ =>
      let moved := updateP s.players pid (fun q => { q with position := pos, rotation := rot })
      ({ s with players := moved },
       [⟨Dest.allExcept pid, Msg.playerMoved pid pos rot⟩])
  | ClientMsg.attack projectile origin direction targetId =>
    handleAttack s pid projectile origin direction targetId
  | ClientMsg.respawn newPos =>
    match findP s.players pid with
    | none => (s, [])
    | some _ =>
      if s.gameInProgress = false then
        let reset := updateP s.players pid
          (fun q => { q with isAlive := true, health := 100, position := newPos, weapon := 0 })
        ({ s with players := reset },
         [⟨Dest.all, Msg.playerRespawnedBrief pid newPos⟩])
      else (s, [])

/-- `startGame()` (lines 152-167): set the in-progress flag, record the
start time, reset `currentAreaSize` to `STARTING_AREA_SIZE`, broadcast
`gameStarted` to all, and schedule the shrink interval. -/
def startGame (s : ServerState) (now : ℤ) : ServerState × List Out :=
  ({ s with gameInProgress := true, gameStartTime := some now,
            currentAreaSize := STARTING_AREA_SIZE, timers := s.timers + 1 },
   [⟨Dest.all, Msg.gameStarted now⟩])

/-- The `wss.on('connection')` body (lines 25-68): insert a fresh player
(alive, health 100, weapon 0, score 0), send the `init` state to the new
socket, broadcast `playerJoined` to everyone (sender included), and —
when the roster has reached 2 players with no game in progress — start
the game.  No capacity check is performed. -/
def connect (s : ServerState) (pid : ℕ) (spawn : Vec3) (now : ℤ) :
    ServerState × List Out :=
  let p : Player :=
    { id := pid, position := spawn, rotation := 0, health := 100,
      weapon := 0, score := some 0, isAlive := true }
  let s1 : ServerState := { s with players := setP s.players p }
  let welcome : List Out :=
    [⟨Dest.to pid, Msg.initMsg pid s1.players s1.gameInProgress s1.gameStartTime s1.currentAreaSize⟩,
     ⟨Dest.all, Msg.playerJoinedFull p⟩]
  if 2 ≤ s1.players.length ∧ s1.gameInProgress = false then
    let started := startGame s1 now
    (started.1, welcome ++ started.2)
  else
    (s1, welcome)

/-- The `ws.on('close')` handler (lines 129-145): remove the player,
broadcast `playerLeft`, and end the game if fewer than 2 players remain
connected (based on roster size, not alive count; no winner is
broadcast and the timer is not cancelled). -/
def close (s : ServerState) (pid : ℕ) : ServerState × List Out :=
  let s1 : ServerState := { s with players := removeP s.players pid }
  let leftOut : List Out := [⟨Dest.all, Msg.playerLeft pid⟩]
  if s1.gameInProgress = true ∧ s1.players.length < 2 then
    let ended := endGame s1
    (ended.1, leftOut ++ ended.2)
  else
    (s1, leftOut)

/-- One `players.forEach` step of the shrink tick (lines 200-222):
identical to `part_000`'s loop body, with this variant's damage chain. -/
def zoneStep (s : ServerState) (pid : ℕ) : ServerState × List Out :=
  match findP s.players pid with
  | none => (s, [])
  | some p =>
    if p.isAlive = true then
      if distGtHalf p.position.x p.position.z s.currentAreaSize then
        let dmg := applyDamage s pid 5 Source.zone
        (dmg.1, dmg.2 ++ [⟨Dest.to pid, Msg.zoneDamage 5⟩])
      else (s, [])
    else (s, [])

/-- The `forEach` over the roster, in Map (insertion) order. -/
def zoneLoop (s : ServerState) (ids : List ℕ) : ServerState × List Out :=
  match ids with
  | [] => (s, [])
  | pid :: rest =>
    let step := zoneStep s pid
    let restRun := zoneLoop step.1 rest
    (restRun.1, step.2 ++ restRun.2)

/-- One firing of the `setInterval` callback of
`startShrinkingPlayArea()` (lines 181-231): textually identical to
`part_000`'s, built on this variant's damage chain and `endGame`. -/
def tick (s : ServerState) : ServerState × List Out :=
  if s.gameInProgress = false then
    ({ s with timers := s.timers - 1 }, [])
  else
    let s1 : ServerState := { s with currentAreaSize := s.currentAreaSize * (9 / 10) }
    let shrinkOut : List Out := [⟨Dest.all, Msg.areaShrank s1.currentAreaSize⟩]
    let looped := zoneLoop s1 (s1.players.map (fun p => p.id))
    let s2 := looped.1
    if s2.currentAreaSize < 5 ∨ (getAlivePlayers s2).length ≤ 1 then
      let winnerOut := determineWinner s2
      let ended := endGame s2
      ({ ended.1 with timers := ended.1.timers - 1 },
       shrinkOut ++ looped.2 ++ winnerOut ++ ended.2)
    else
      (s2, shrinkOut ++ looped.2)

/-- Reachable states of the `part_001` server: the initial state, closed
under connections (fresh uuid), inbound messages, disconnects, and
firings of a scheduled shrink interval. -/
inductive Reachable : ServerState → Prop where
  | start : Reachable initState
  | connectStep (s : ServerState) (pid : ℕ) (spawn : Vec3) (now : ℤ) :
      Reachable s → pid ∉ s.players.map (fun p => p.id) →
      Reachable (connect s pid spawn now).1
  | messageStep (s : ServerState) (pid : ℕ) (m : ClientMsg) :
      Reachable s → Reachable (handleMessage s pid m).1
  | closeStep (s : ServerState) (pid : ℕ) :
      Reachable s → Reachable (close s pid).1
  | tickStep (s : ServerState) :
      Reachable s → 1 ≤ s.timers → Reachable (tick s).1

end Srv1

/-!
## Concrete fixtures

Explicit states and traces used to evaluate the embedded handlers at
concrete inputs.  Spawn positions and timestamps (random / `Date.now()`
in the source) are fixed arbitrarily.
-/

/-- A fixed spawn position (the y component is the source's constant
ground offset `0.5`). -/
def spawn0 : Vec3 := ⟨0, 1 / 2, 0⟩

/-- `part_000` trace: two players connect. -/
def c1afterConnects : ServerState :=
  (Srv0.connect (Srv0.connect initState 1 spawn0).1 2 spawn0).1

/-- A client-reported projectile hit on player 2 for 40 damage (the
server trusts the reported amount; 40 is the spec's own gun-damage
figure). -/
def c1hitMsg : Srv0.ClientMsg := Srv0.ClientMsg.projectileHit (some 2) 40

/-- After the first reported hit (player 2 at health 60). -/
def c1afterHit1 : ServerState := (Srv0.handleMessage c1afterConnects 1 c1hitMsg).1

/-- After the second reported hit (player 2 at health 20). -/
def c1afterHit2 : ServerState := (Srv0.handleMessage c1afterHit1 1 c1hitMsg).1

/-- The third reported hit (player 2 drops to health −20 and dies). -/
def c1thirdHit : ServerState × List Out := Srv0.handleMessage c1afterHit2 1 c1hitMsg

/-- A third player connects after the kill and receives the roster
snapshot. -/
def c1reconnect : ServerState × List Out := Srv0.connect c1thirdHit.1 3 spawn0

/-- Run a sequence of `part_000` connections. -/
def connectMany (s : ServerState) (pids : List ℕ) : ServerState :=
  pids.foldl (fun st pid => (Srv0.connect st pid spawn0).1) s

/-- Eleven successive connections to an empty `part_000` server. -/
def c3eleven : ServerState := connectMany initState (List.range 11)

/-- A mid-round `part_000` state: players 1 and 2 connected and alive,
game in progress, area at the starting size, one shrink timer active. -/
def c4running : ServerState :=
  { players :=
      [{ id := 1, position := spawn0, rotation := 0, health := 100,
         weapon := 0, score := none, isAlive := true },
       { id := 2, position := spawn0, rotation := 0, health := 100,
         weapon := 0, score := none, isAlive := true }],
    gameInProgress := true, gameStartTime := some 0,
    currentAreaSize := STARTING_AREA_SIZE, timers := 1 }

/-- Player 1 disconnects mid-round (first round-end trigger). -/
def c4afterClose : ServerState × List Out := Srv0.close c4running 1

/-- The next shrink-timer tick (second round-end trigger). -/
def c4afterTick : ServerState × List Out := Srv0.tick c4afterClose.1

/-- Recognise a winner broadcast (`gameWon` or `gameDraw`). -/
def isWinnerMsg (o : Out) : Bool :=
  match o.msg with
  | Msg.gameWon _ _ => true
  | Msg.gameDraw => true
  | _ => false

/-- `part_001` trace: first player connects. -/
def c5t1 : ServerState := (Srv1.connect initState 1 spawn0 0).1

/-- Second player connects; the roster reaches 2, so the round starts
and a shrink timer is scheduled. -/
def c5t2 : ServerState := (Srv1.connect c5t1 2 spawn0 0).1

/-- Player 2 disconnects mid-round; `endGame` runs but the shrink timer
is not cancelled. -/
def c5t3 : ServerState := (Srv1.close c5t2 2).1

/-- A third player connects while the stale timer is still scheduled; a
new round starts and a second timer is scheduled. -/
def c5t4 : ServerState := (Srv1.connect c5t3 3 spawn0 5).1

/-- A mid-round `part_001` state with a single alive player standing at
planar distance 50 from the center (inside the upcoming broadcast size
90, but outside its half). -/
def c6state : ServerState :=
  { players :=
      [{ id := 1, position := ⟨50, 1 / 2, 0⟩, rotation := 0, health := 100,
         weapon := 0, score := some 0, isAlive := true }],
    gameInProgress := true, gameStartTime := some 0,
    currentAreaSize := STARTING_AREA_SIZE, timers := 1 }

/-- A mid-round `part_001` state in which player 1 is dead. -/
def c7state : ServerState :=
  { players :=
      [{ id := 1, position := spawn0, rotation := 0, health := 0,
         weapon := 0, score := some 0, isAlive := false },
       { id := 2, position := spawn0, rotation := 0, health := 100,
         weapon := 0, score := some 0, isAlive := true }],
    gameInProgress := true, gameStartTime := some 0,
    currentAreaSize := STARTING_AREA_SIZE, timers := 1 }

/-- A mid-round `part_001` state in which player 1 is dead and requests
a respawn. -/
def c8state : ServerState :=
  { players :=
      [{ id := 1, position := spawn0, rotation := 0, health := -5,
         weapon := 0, score := some 0, isAlive := false },
       { id := 2, position := spawn0, rotation := 0, health := 100,
         weapon := 0, score := some 0, isAlive := true }],
    gameInProgress := true, gameStartTime := some 0,
    currentAreaSize := STARTING_AREA_SIZE, timers := 1 }

/-- An idle `part_001` state with a single connected player, one short
of the round-start threshold. -/
def c2idle1 : ServerState :=
  { players :=
      [{ id := 1, position := spawn0, rotation := 0, health := 100,
         weapon := 0, score := some 0, isAlive := true }],
    gameInProgress := false, gameStartTime := none,
    currentAreaSize := STARTING_AREA_SIZE, timers := 0 }

/-- Proof apparatus (not itself source code): the roster
well-formedness used in the reachable-state induction for `part_000` —
player ids are unique (they are freshly drawn uuids) and every dead
player has non-positive health. -/
def RosterInv (ps : List Player) : Prop :=
  (ps.map (fun p => p.id)).Nodup ∧ ∀ p ∈ ps, p.isAlive = false → p.health ≤ 0

/-!
## Faithfulness of the zone-distance embedding
-/

/-- Faithfulness of `distGtHalf` to the source's
`Math.sqrt(x² + z²) > s / 2`. -/
theorem distGtHalf_iff_sqrt (x z s : ℚ) :
    distGtHalf x z s = true ↔ ((s : ℝ) / 2 < Real.sqrt ((x : ℝ) ^ 2 + (z : ℝ) ^ 2)) := by
  unfold distGtHalf
  split
  · rename_i hneg
    simp only [true_iff]
    calc (s : ℝ) / 2 < 0 := by
            have : (s : ℝ) < 0 := by exact_mod_cast hneg
            linarith
      _ ≤ Real.sqrt ((x : ℝ) ^ 2 + (z : ℝ) ^ 2) := Real.sqrt_nonneg _
  · rename_i hnonneg
    have hs : (0 : ℝ) ≤ (s : ℝ) / 2 := by
      have : (0 : ℚ) ≤ s := le_of_not_lt hnonneg
      have : (0 : ℝ) ≤ (s : ℝ) := by exact_mod_cast this
      linarith
    have hd : (0 : ℝ) ≤ (x : ℝ) ^ 2 + (z : ℝ) ^ 2 := by positivity
    rw [decide_eq_true_eq, Real.lt_sqrt hs]
    constructor
    · intro h
      exact_mod_cast h
    · intro h
      exact_mod_cast h

/-!
## Claim C9 — boundary behaviour of the point-in-box test
-/

/-- Claim C9 counterexample: the point `(2, 0, 0)` lies exactly on the
boundary of the box centered at the origin with width 4 (its x equals
center x plus the half-extent), yet `isPositionInBuilding` reports it as
*not* contained — the comparisons are strict, so boundaries are
exclusive, contradicting the claim that boundary points are contained. -/
theorem c9_boundary_counterexample :
    (⟨2, 0, 0⟩ : Vec3).x = (⟨⟨0, 0, 0⟩, ⟨4, 4, 4⟩⟩ : Client.Obstacle).position.x +
      (⟨⟨0, 0, 0⟩, ⟨4, 4, 4⟩⟩ : Client.Obstacle).size.x * (1 / 2) ∧
    Client.isPositionInBuilding ⟨2, 0, 0⟩ [⟨⟨0, 0, 0⟩, ⟨4, 4, 4⟩⟩] = false := by
  constructor
  · decide
  · decide

/-- Claim C9 (amended): the point-in-box test treats box boundaries as
*exclusive*: it returns `true` exactly when, for some obstacle in the
list, the point's x and z coordinates both lie strictly within the
obstacle's half-extents of its center; a point exactly on the boundary is
reported as not contained. -/
theorem c9_strict_containment (p : Vec3) (obstacles : List Client.Obstacle) :
    Client.isPositionInBuilding p obstacles = true ↔
      ∃ b ∈ obstacles,
        |p.x - b.position.x| < b.size.x * (1 / 2) ∧
        |p.z - b.position.z| < b.size.z * (1 / 2) := by
  unfold Client.isPositionInBuilding
  rw [List.any_eq_true]
  constructor
  · rintro ⟨b, hb, hins⟩
    simp only [Client.insideObstacle, Bool.and_eq_true, decide_eq_true_eq] at hins
    obtain ⟨⟨⟨h1, h2⟩, h3⟩, h4⟩ := hins
    refine ⟨b, hb, ?_, ?_⟩
    · rw [abs_sub_lt_iff]
      constructor <;> linarith
    · rw [abs_sub_lt_iff]
      constructor <;> linarith
  · rintro ⟨b, hb, hx, hz⟩
    rw [abs_sub_lt_iff] at hx hz
    refine ⟨b, hb, ?_⟩
    simp only [Client.insideObstacle, Bool.and_eq_true, decide_eq_true_eq]
    refine ⟨⟨⟨?_, ?_⟩, ?_⟩, ?_⟩ <;> [skip; skip; skip; skip] <;>
      first
      | (show p.x > b.position.x - b.size.x * (1 / 2); linarith [hx.1, hx.2])
      | (show p.x < b.position.x + b.size.x * (1 / 2); linarith [hx.1, hx.2])
      | (show p.z > b.position.z - b.size.z * (1 / 2); linarith [hz.1, hz.2])
      | (show p.z < b.position.z + b.size.z * (1 / 2); linarith [hz.1, hz.2])

/-!
## Claim C10 — out-of-bounds positions always collide
-/

/-- Claim C10: `checkCollision` returns `true` whenever the position's x
or z coordinate lies outside the fixed world bounds `[-50, 50]`,
regardless of the obstacle list — movement collision is not purely a
function of obstacle overlap. -/
theorem c10_bounds_force_collision (position : Vec3) (size : ℚ)
    (obstacles : List Client.Obstacle)
    (h : position.x < -50 ∨ position.x > 50 ∨ position.z < -50 ∨ position.z > 50) :
    Client.checkCollision position size obstacles = true := by
  unfold Client.checkCollision
  by_cases hany : (obstacles.any (Client.overlapsObstacle position size)) = true
  · rw [if_pos hany]
  · rw [if_neg hany, if_pos h]

/-- Claim C10 witness: the position `(60, 0, 0)` is out of bounds on x,
and `checkCollision` reports a collision for it with an empty obstacle
list. -/
theorem c10_bounds_force_collision_witness :
    ((⟨60, 0, 0⟩ : Vec3).x < -50 ∨ (⟨60, 0, 0⟩ : Vec3).x > 50 ∨
      (⟨60, 0, 0⟩ : Vec3).z < -50 ∨ (⟨60, 0, 0⟩ : Vec3).z > 50) ∧
    Client.checkCollision ⟨60, 0, 0⟩ 1 [] = true :=
  ⟨Or.inr (Or.inl (by decide)),
   c10_bounds_force_collision ⟨60, 0, 0⟩ 1 [] (Or.inr (Or.inl (by decide)))⟩

/-!
## Claim C1 — observable health values
-/

/-- Claim C1 counterexample: after two players connect to the `part_000`
server and player 1 reports three 40-damage projectile hits on player 2
(the gun damage from the spec's own scenario), the third `playerDamaged`
broadcast carries health −20 — negative — and the roster snapshot sent
to a subsequently connecting player shows the dead player 2 with health
−20, not 0.  `applyDamage` never clamps. -/
theorem c1_negative_health_counterexample :
    (⟨Dest.all, Msg.playerDamaged 2 (-20) (Source.player 1)⟩ ∈ c1thirdHit.2) ∧
    (findP c1thirdHit.1.players 2 =
      some { id := 2, position := spawn0, rotation := 0, health := -20,
             weapon := 0, score := none, isAlive := false }) ∧
    (⟨Dest.to 3, Msg.playerConnected 3 false (c1reconnect.1.players.map snapOf)⟩ ∈ c1reconnect.2) ∧
    ((⟨2, spawn0, 0, -20, 0, false⟩ : PlayerSnap) ∈ c1reconnect.1.players.map snapOf) := by
  decide

/-!
## Claim C3 — roster capacity
-/

/-- Claim C3: after eleven successive connections to an empty `part_000`
server, the roster holds 11 entries — one more than `MAX_PLAYERS = 10`.
Both connection handlers insert unconditionally: the declared capacity
constant is never consulted, so no connection is ever rejected. -/
theorem c3_eleventh_connection_inserted :
    c3eleven.players.length = 11 ∧ MAX_PLAYERS = 10 := by
  decide

/-!
## Claim C4 — double round-end trigger
-/

/-- Claim C4: starting from a mid-round `part_000` state with two alive
players, a disconnect of one (leaving one alive) broadcasts `gameWon`,
but does not end the game; the next shrink tick then broadcasts `gameWon`
a second time.  Two winner broadcasts are produced for the same round —
the second trigger is not a no-op. -/
theorem c4_double_winner_broadcast :
    (⟨Dest.all, Msg.gameWon 2 none⟩ ∈ c4afterClose.2) ∧
    c4afterClose.1.gameInProgress = true ∧
    (⟨Dest.all, Msg.gameWon 2 none⟩ ∈ c4afterTick.2) ∧
    ((c4afterClose.2 ++ c4afterTick.2).filter isWinnerMsg).length = 2 := by
  decide

/-!
## Claim C5 — phase/timer correspondence
-/

/-- Claim C5 counterexample: in the `part_001` server, after two players
join (round starts, one timer scheduled) and one disconnects (round
ends), the reachable state `c5t3` has `gameInProgress = false` with the
shrink timer still scheduled — the "Running iff timer active"
biconditional fails; and after a further connection restarts the round,
the reachable state `c5t4` has two active shrink timers at once. -/
theorem c5_stale_timer_counterexample :
    Srv1.Reachable c5t3 ∧ c5t3.gameInProgress = false ∧ c5t3.timers = 1 ∧
    Srv1.Reachable c5t4 ∧ c5t4.gameInProgress = true ∧ c5t4.timers = 2 := by
  have h1 : Srv1.Reachable c5t1 :=
    Srv1.Reachable.connectStep initState 1 spawn0 0 Srv1.Reachable.start (by decide)
  have h2 : Srv1.Reachable c5t2 :=
    Srv1.Reachable.connectStep c5t1 2 spawn0 0 h1 (by decide)
  have h3 : Srv1.Reachable c5t3 := Srv1.Reachable.closeStep c5t2 2 h2
  have h4 : Srv1.Reachable c5t4 :=
    Srv1.Reachable.connectStep c5t3 3 spawn0 5 h3 (by decide)
  exact ⟨h3, by decide, by decide, h4, by decide, by decide⟩

/-!
## Claim C6 — zone damage threshold
-/

/-- Claim C6 counterexample: on a shrink tick from size 100, the new
broadcast size is 90, and the single alive player stands at planar
distance 50 from the center — at most the broadcast "radius" 90, so the
claim says it receives no zone damage.  The code nevertheless damages it
(50 exceeds half the new size, 45): its health drops to 95, a
`playerDamaged` event with source `'zone'` is broadcast, and a
`zoneDamage` message is sent to it. -/
theorem c6_inside_radius_damaged_counterexample :
    (⟨Dest.all, Msg.areaShrank 90⟩ ∈ (Srv1.tick c6state).2) ∧
    ((50 : ℚ) ^ 2 ≤ 90 ^ 2) ∧
    (⟨Dest.to 1, Msg.zoneDamage 5⟩ ∈ (Srv1.tick c6state).2) ∧
    (⟨Dest.all, Msg.playerDamaged 1 95 Source.zone⟩ ∈ (Srv1.tick c6state).2) := by
  decide

/-!
## Claim C7 — position updates from dead players
-/

/-- Claim C7 counterexample: the `part_001` `updatePosition` handler has
no aliveness check: a position update from the dead roster player 1 is
*applied* — the stored position and rotation change and a `playerMoved`
event is broadcast — contradicting the claim that such updates are
silently dropped. -/
theorem c7_dead_update_applied_counterexample :
    (findP c7state.players 1 =
      some { id := 1, position := spawn0, rotation := 0, health := 0,
             weapon := 0, score := some 0, isAlive := false }) ∧
    (findP (Srv1.handleMessage c7state 1
        (Srv1.ClientMsg.updatePosition ⟨9, 1 / 2, 9⟩ 3)).1.players 1 =
      some { id := 1, position := ⟨9, 1 / 2, 9⟩, rotation := 3, health := 0,
             weapon := 0, score := some 0, isAlive := false }) ∧
    ((⟨Dest.allExcept 1, Msg.playerMoved 1 ⟨9, 1 / 2, 9⟩ 3⟩ : Out) ∈
      (Srv1.handleMessage c7state 1 (Srv1.ClientMsg.updatePosition ⟨9, 1 / 2, 9⟩ 3)).2) := by
  decide

/-!
## Claim C8 — respawn during a round
-/

/-- Claim C8 counterexample: the `part_001` `respawn` handler answers a
mid-round respawn request from roster player 1 with *no reply at all*
(the state is unchanged, but no rejection message carrying a reason is
sent), contradicting the claim that such requests are answered with a
rejection reply. -/
theorem c8_no_rejection_reply_counterexample :
    c8state.gameInProgress = true ∧
    Srv1.handleMessage c8state 1 (Srv1.ClientMsg.respawn ⟨5, 1 / 2, 5⟩) = (c8state, []) := by
  decide

/-!
## Roster helper lemmas
-/

/-- A fresh id matches no roster entry. -/
theorem any_id_eq_false_of_fresh (ps : List Player) (pid : ℕ)
    (h : pid ∉ ps.map (fun p => p.id)) :
    ps.any (fun q => q.id == pid) = false := by
  rw [List.any_eq_false]
  intro q hq hqe
  rw [beq_iff_eq] at hqe
  exact h (hqe ▸ List.mem_map_of_mem (fun p => p.id) hq)

/-- `Map.set` with a fresh key appends. -/
theorem setP_fresh (ps : List Player) (p : Player)
    (h : p.id ∉ ps.map (fun q => q.id)) :
    setP ps p = ps ++ [p] := by
  unfold setP
  rw [any_id_eq_false_of_fresh ps p.id h]
  simp

/-- `players.get` on a cons cell whose head matches. -/
theorem findP_cons_eq {q : Player} {rest : List Player} {pid : ℕ} (h : q.id = pid) :
    findP (q :: rest) pid = some q := by
  unfold findP
  exact List.find?_cons_of_pos _ (by simp [h])

/-- `players.get` on a cons cell whose head does not match. -/
theorem findP_cons_ne {q : Player} {rest : List Player} {pid : ℕ} (h : ¬q.id = pid) :
    findP (q :: rest) pid = findP rest pid := by
  unfold findP
  exact List.find?_cons_of_neg _ (by simp [h])

/-- `updateP` unfolded one step. -/
theorem updateP_cons (q : Player) (rest : List Player) (pid : ℕ) (f : Player → Player) :
    updateP (q :: rest) pid f = (if q.id = pid then f q else q) :: updateP rest pid f := rfl

/-- Looking up the updated key after an id-preserving in-place update. -/
theorem findP_updateP_self (ps : List Player) (pid : ℕ) (f : Player → Player)
    (hf : ∀ q, (f q).id = q.id) (p : Player) (hfind : findP ps pid = some p) :
    findP (updateP ps pid f) pid = some (f p) := by
  induction ps with
  | nil => exact absurd hfind (by simp [findP])
  | cons q rest ih =>
    rw [updateP_cons]
    by_cases hq : q.id = pid
    · rw [findP_cons_eq hq] at hfind
      injection hfind with hpq
      subst hpq
      rw [if_pos hq, findP_cons_eq (by rw [hf q]; exact hq)]
    · rw [findP_cons_ne hq] at hfind
      rw [if_neg hq, findP_cons_ne hq]
      exact ih hfind

/-- Looking up a different key after an id-preserving in-place update. -/
theorem findP_updateP_ne (ps : List Player) (pid : ℕ) (f : Player → Player)
    (hf : ∀ q, (f q).id = q.id) (j : ℕ) (hne : j ≠ pid) :
    findP (updateP ps pid f) j = findP ps j := by
  induction ps with
  | nil => rfl
  | cons q rest ih =>
    rw [updateP_cons]
    by_cases hqj : q.id = j
    · have hq : ¬q.id = pid := fun hc => hne (by rw [← hqj, hc])
      rw [if_neg hq, findP_cons_eq hqj, findP_cons_eq hqj]
    · by_cases hq : q.id = pid
      · rw [if_pos hq]
        have hfj : ¬(f q).id = j := by rw [hf q]; exact hqj
        rw [findP_cons_ne hfj, findP_cons_ne hqj]
        exact ih
      · rw [if_neg hq, findP_cons_ne hqj, findP_cons_ne hqj]
        exact ih

/-!
## Claim C2 — round start at two players
-/

/-- Claim C2: when a connection is accepted by the `part_001` server
while no round is in progress and the roster reaches (at least) 2
players, the round starts: `gameInProgress` becomes true,
`currentAreaSize` is reset to the starting constant 100, the start time
is recorded, one shrink timer is scheduled, and `gameStarted` is
broadcast to all connections. -/
theorem c2_roster_reaches_two_starts_round (s : ServerState) (pid : ℕ) (spawn : Vec3)
    (now : ℤ)
    (hidle : s.gameInProgress = false)
    (hfresh : pid ∉ s.players.map (fun p => p.id))
    (hsize : 1 ≤ s.players.length) :
    (Srv1.connect s pid spawn now).1.gameInProgress = true ∧
    (Srv1.connect s pid spawn now).1.currentAreaSize = STARTING_AREA_SIZE ∧
    STARTING_AREA_SIZE = 100 ∧
    (Srv1.connect s pid spawn now).1.gameStartTime = some now ∧
    (Srv1.connect s pid spawn now).1.timers = s.timers + 1 ∧
    (⟨Dest.all, Msg.gameStarted now⟩ : Out) ∈ (Srv1.connect s pid spawn now).2 := by
  have hset : setP s.players
      { id := pid, position := spawn, rotation := 0, health := 100,
        weapon := 0, score := some 0, isAlive := true } =
      s.players ++
      [{ id := pid, position := spawn, rotation := 0, health := 100,
         weapon := 0, score := some 0, isAlive := true }] :=
    setP_fresh _ _ hfresh
  unfold Srv1.connect Srv1.startGame
  simp only [hset, List.length_append, List.length_cons, List.length_nil]
  rw [if_pos ⟨by omega, hidle⟩]
  refine ⟨rfl, rfl, rfl, rfl, rfl, ?_⟩
  simp

/-- Claim C2 witness: a second player connecting to the idle one-player
state `c2idle1` starts the round with area size 100. -/
theorem c2_roster_reaches_two_starts_round_witness :
    (Srv1.connect c2idle1 2 spawn0 7).1.gameInProgress = true ∧
    (Srv1.connect c2idle1 2 spawn0 7).1.currentAreaSize = STARTING_AREA_SIZE ∧
    STARTING_AREA_SIZE = 100 ∧
    (Srv1.connect c2idle1 2 spawn0 7).1.gameStartTime = some 7 ∧
    (Srv1.connect c2idle1 2 spawn0 7).1.timers = c2idle1.timers + 1 ∧
    (⟨Dest.all, Msg.gameStarted 7⟩ : Out) ∈ (Srv1.connect c2idle1 2 spawn0 7).2 :=
  c2_roster_reaches_two_starts_round c2idle1 2 spawn0 7 (by decide) (by decide) (by decide)

/-- Claim C7 (amended): in the `part_000` `playerUpdate` handler, a
position update from a dead roster player is silently dropped (state
unchanged, no broadcast, no error), and one from an alive player stores
the position and rotation verbatim and broadcasts `playerMoved` to all
connections except the sender; the `part_001` `updatePosition` handler,
however, applies the update and broadcasts it for *any* roster player,
dead or alive. -/
theorem c7_update_position_characterisation (s : ServerState) (pid : ℕ) (pos : Vec3)
    (rot : ℚ) (p : Player) (hfind : findP s.players pid = some p) :
    (p.isAlive = false →
      Srv0.handleMessage s pid (Srv0.ClientMsg.playerUpdate pos rot) = (s, [])) ∧
    (p.isAlive = true →
      findP (Srv0.handleMessage s pid (Srv0.ClientMsg.playerUpdate pos rot)).1.players pid =
        some { p with position := pos, rotation := rot } ∧
      (Srv0.handleMessage s pid (Srv0.ClientMsg.playerUpdate pos rot)).2 =
        [⟨Dest.allExcept pid, Msg.playerMoved pid pos rot⟩]) ∧
    (findP (Srv1.handleMessage s pid (Srv1.ClientMsg.updatePosition pos rot)).1.players pid =
      some { p with position := pos, rotation := rot } ∧
     (Srv1.handleMessage s pid (Srv1.ClientMsg.updatePosition pos rot)).2 =
       [⟨Dest.allExcept pid, Msg.playerMoved pid pos rot⟩]) := by
  refine ⟨?_, ?_, ?_, ?_⟩
  · intro hdead
    simp [Srv0.handleMessage, hfind, hdead]
  · intro halive
    simp only [Srv0.handleMessage, hfind]
    rw [if_pos halive]
    exact ⟨findP_updateP_self s.players pid
      (fun q => { q with position := pos, rotation := rot }) (fun q => rfl) p hfind, rfl⟩
  · simp only [Srv1.handleMessage, hfind]
    exact findP_updateP_self s.players pid
      (fun q => { q with position := pos, rotation := rot }) (fun q => rfl) p hfind
  · simp only [Srv1.handleMessage, hfind]

/-- Claim C7 witness: in the state `c7state`, a `part_000`-style update
from the dead player 1 leaves everything unchanged, while the
`part_001` handler stores the new position for the same dead player. -/
theorem c7_update_position_witness :
    (Srv0.handleMessage c7state 1 (Srv0.ClientMsg.playerUpdate ⟨9, 1 / 2, 9⟩ 3) =
      (c7state, [])) ∧
    (findP (Srv1.handleMessage c7state 1
        (Srv1.ClientMsg.updatePosition ⟨9, 1 / 2, 9⟩ 3)).1.players 1 =
      some { id := 1, position := ⟨9, 1 / 2, 9⟩, rotation := 3, health := 0,
             weapon := 0, score := some 0, isAlive := false }) := by
  have h := c7_update_position_characterisation c7state 1 ⟨9, 1 / 2, 9⟩ 3
    { id := 1, position := spawn0, rotation := 0, health := 0,
      weapon := 0, score := some 0, isAlive := false } (by decide)
  exact ⟨h.1 rfl, h.2.2.1⟩

/-- Claim C8 (amended): while a round is in progress, a respawn request
from a roster player mutates no state in either variant; the `part_000`
handler answers it with a `respawnRejected` reply carrying the
human-readable reason string, while the `part_001` handler sends no
reply at all.  While no round is in progress, the `part_000` handler
resets the player to health 100, alive, base weapon and the fresh random
position, and replies `respawnAccepted` with the new position. -/
theorem c8_respawn_characterisation (s : ServerState) (pid : ℕ) (newPos : Vec3)
    (p : Player) (hfind : findP s.players pid = some p) :
    (s.gameInProgress = true →
      Srv0.handleMessage s pid (Srv0.ClientMsg.respawn newPos) =
        (s, [⟨Dest.to pid, Msg.respawnRejected "Cannot respawn during active game round"⟩]) ∧
      Srv1.handleMessage s pid (Srv1.ClientMsg.respawn newPos) = (s, [])) ∧
    (s.gameInProgress = false →
      findP (Srv0.handleMessage s pid (Srv0.ClientMsg.respawn newPos)).1.players pid =
        some { p with isAlive := true, health := 100, position := newPos, weapon := 0 } ∧
      (Srv0.handleMessage s pid (Srv0.ClientMsg.respawn newPos)).2 =
        [⟨Dest.to pid, Msg.respawnAccepted newPos⟩,
         ⟨Dest.allExcept pid, Msg.playerRespawnedFull pid newPos p.rotation 100 0⟩]) := by
  constructor
  · intro hrun
    have hne : ¬s.gameInProgress = false := by simp [hrun]
    constructor
    · simp only [Srv0.handleMessage, hfind]
      rw [if_neg hne]
    · simp only [Srv1.handleMessage, hfind]
      rw [if_neg hne]
  · intro hidle
    constructor
    · simp only [Srv0.handleMessage, hfind]
      rw [if_pos hidle]
      exact findP_updateP_self s.players pid
        (fun q => { q with isAlive := true, health := 100, position := newPos, weapon := 0 })
        (fun q => rfl) p hfind
    · simp only [Srv0.handleMessage, hfind]
      rw [if_pos hidle]

/-- Claim C8 witness: in the mid-round state `c8state`, the dead
player 1's respawn request gets the `part_000` rejection reply with its
reason string, and no reply from the `part_001` handler. -/
theorem c8_respawn_characterisation_witness :
    c8state.gameInProgress = true ∧
    (Srv0.handleMessage c8state 1 (Srv0.ClientMsg.respawn ⟨5, 1 / 2, 5⟩) =
      (c8state, [⟨Dest.to 1, Msg.respawnRejected "Cannot respawn during active game round"⟩])) ∧
    (Srv1.handleMessage c8state 1 (Srv1.ClientMsg.respawn ⟨5, 1 / 2, 5⟩) = (c8state, [])) := by
  have h := c8_respawn_characterisation c8state 1 ⟨5, 1 / 2, 5⟩
    { id := 1, position := spawn0, rotation := 0, health := -5,
      weapon := 0, score := some 0, isAlive := false } (by decide)
  exact ⟨rfl, (h.1 rfl).1, (h.1 rfl).2⟩

/-!
## Flag-preservation lemmas for the `part_001` damage chain
-/

/-- `part_001` `endGame` leaves the timer count alone and clears the
in-progress flag. -/
theorem Srv1.endGame_flags (s : ServerState) :
    (Srv1.endGame s).1.timers = s.timers ∧ (Srv1.endGame s).1.gameInProgress = false :=
  ⟨rfl, rfl⟩

/-- `part_001` `playerDied` never schedules or cancels a timer and never
sets the in-progress flag. -/
theorem Srv1.playerDied_flags (s : ServerState) (pid : ℕ) (k : Source) :
    (Srv1.playerDied s pid k).1.timers = s.timers ∧
    ((Srv1.playerDied s pid k).1.gameInProgress = true → s.gameInProgress = true) := by
  unfold Srv1.playerDied Srv1.endGame
  dsimp only
  repeat' split
  all_goals refine ⟨rfl, fun h => ?_⟩
  all_goals first
    | exact h
    | simp at h

/-- `part_001` `applyDamage` never schedules or cancels a timer and
never sets the in-progress flag. -/
theorem Srv1.applyDamage_flags (s : ServerState) (pid : ℕ) (amount : ℚ) (src : Source) :
    (Srv1.applyDamage s pid amount src).1.timers = s.timers ∧
    ((Srv1.applyDamage s pid amount src).1.gameInProgress = true →
      s.gameInProgress = true) := by
  unfold Srv1.applyDamage
  cases hfind : findP s.players pid with
  | none => exact ⟨rfl, fun h => h⟩
  | some p =>
    simp only [hfind]
    split
    · exact Srv1.playerDied_flags _ pid src
    · exact ⟨rfl, fun h => h⟩

/-- `part_001` `handleAttack` never schedules or cancels a timer and
never sets the in-progress flag. -/
theorem Srv1.handleAttack_flags (s : ServerState) (attackerId : ℕ) (projectile : Bool)
    (origin direction : Vec3) (targetId : Option ℕ) :
    (Srv1.handleAttack s attackerId projectile origin direction targetId).1.timers = s.timers ∧
    ((Srv1.handleAttack s attackerId projectile origin direction targetId).1.gameInProgress = true →
      s.gameInProgress = true) := by
  unfold Srv1.handleAttack
  cases hfa : findP s.players attackerId with
  | none => exact ⟨rfl, fun h => h⟩
  | some attacker =>
    simp only [hfa]
    split
    · exact ⟨rfl, fun h => h⟩
    · split
      · exact ⟨rfl, fun h => h⟩
      · cases targetId with
        | none => exact ⟨rfl, fun h => h⟩
        | some tid =>
          dsimp only
          cases hft : findP s.players tid with
          | none => exact ⟨rfl, fun h => h⟩
          | some target =>
            dsimp only
            split
            · exact Srv1.applyDamage_flags s tid (weaponDamage attacker.weapon)
                (Source.player attackerId)
            · exact ⟨rfl, fun h => h⟩

/-- A `part_001` zone-loop step never schedules or cancels a timer and
never sets the in-progress flag. -/
theorem Srv1.zoneStep_flags (s : ServerState) (pid : ℕ) :
    (Srv1.zoneStep s pid).1.timers = s.timers ∧
    ((Srv1.zoneStep s pid).1.gameInProgress = true → s.gameInProgress = true) := by
  unfold Srv1.zoneStep
  cases hfind : findP s.players pid with
  | none => exact ⟨rfl, fun h => h⟩
  | some p =>
    simp only [hfind]
    split
    · split
      · exact Srv1.applyDamage_flags s pid 5 Source.zone
      · exact ⟨rfl, fun h => h⟩
    · exact ⟨rfl, fun h => h⟩

/-- The `part_001` zone loop never schedules or cancels a timer and
never sets the in-progress flag. -/
theorem Srv1.zoneLoop_flags (ids : List ℕ) (s : ServerState) :
    (Srv1.zoneLoop s ids).1.timers = s.timers ∧
    ((Srv1.zoneLoop s ids).1.gameInProgress = true → s.gameInProgress = true) := by
  induction ids generalizing s with
  | nil => exact ⟨rfl, fun h => h⟩
  | cons pid rest ih =>
    have hstep := Srv1.zoneStep_flags s pid
    have hrest := ih (Srv1.zoneStep s pid).1
    exact ⟨by rw [Srv1.zoneLoop]; rw [hrest.1, hstep.1],
           fun h => hstep.2 (hrest.2 (by rw [Srv1.zoneLoop] at h; exact h))⟩

/-- Claim C5 (amended): in every reachable state of the `part_001`
server, a running phase implies at least one scheduled shrink timer; the
converse fails — a timer can outlive the round it was scheduled for (and
a fresh round started under a stale timer has two) — but any timer that
fires while no round is in progress cancels itself, doing nothing else. -/
theorem c5_running_phase_has_timer (s : ServerState) (h : Srv1.Reachable s) :
    (s.gameInProgress = true → 1 ≤ s.timers) ∧
    (s.gameInProgress = false →
      Srv1.tick s = ({ s with timers := s.timers - 1 }, [])) := by
  constructor
  · induction h with
    | start => intro hpro; simp [initState] at hpro
    | connectStep s' pid spawn now hr hfresh ih =>
      unfold Srv1.connect Srv1.startGame
      dsimp only
      split
      · intro _
        exact Nat.succ_le_succ (Nat.zero_le _)
      · exact ih
    | messageStep s' pid m hr ih =>
      cases m with
      | updatePosition pos rot =>
        unfold Srv1.handleMessage
        cases hf : findP s'.players pid with
        | none => exact ih
        | some p => exact ih
      | attack projectile origin direction targetId =>
        intro hpro
        have hfl := Srv1.handleAttack_flags s' pid projectile origin direction targetId
        rw [show (Srv1.handleMessage s' pid
          (Srv1.ClientMsg.attack projectile origin direction targetId)) =
          Srv1.handleAttack s' pid projectile origin direction targetId from rfl] at hpro ⊢
        rw [hfl.1]
        exact ih (hfl.2 hpro)
      | respawn newPos =>
        unfold Srv1.handleMessage
        cases hf : findP s'.players pid with
        | none => exact ih
        | some p =>
          dsimp only
          split
          · exact ih
          · exact ih
    | closeStep s' pid hr ih =>
      unfold Srv1.close Srv1.endGame
      dsimp only
      split
      · intro hpro
        simp at hpro
      · exact ih
    | tickStep s' hr htimers ih =>
      unfold Srv1.tick
      dsimp only
      split
      · rename_i hfalse
        intro hpro
        rw [hfalse] at hpro
        exact absurd hpro (by decide)
      · split
        · intro hpro
          simp [Srv1.endGame] at hpro
        · intro _
          rw [(Srv1.zoneLoop_flags _ _).1]
          exact htimers
  · intro hidle
    unfold Srv1.tick
    rw [if_pos hidle]

/-- Claim C5 witness: the reachable two-player running state `c5t2` has
the in-progress flag set and (at least) one scheduled timer, and a tick
on the later idle state `c5t3` only cancels itself. -/
theorem c5_running_phase_has_timer_witness :
    (c5t2.gameInProgress = true → 1 ≤ c5t2.timers) ∧
    (c5t2.gameInProgress = false →
      Srv1.tick c5t2 = ({ c5t2 with timers := c5t2.timers - 1 }, [])) :=
  c5_running_phase_has_timer c5t2
    (Srv1.Reachable.connectStep c5t1 2 spawn0 0
      (Srv1.Reachable.connectStep initState 1 spawn0 0 Srv1.Reachable.start (by decide))
      (by decide))

/-!
## Roster-invariant lemmas for the `part_000` reachability induction
-/

/-- A successful lookup returns a roster member carrying the looked-up
id. -/
theorem findP_mem {ps : List Player} {pid : ℕ} {p : Player}
    (h : findP ps pid = some p) : p ∈ ps ∧ p.id = pid := by
  unfold findP at h
  refine ⟨List.mem_of_find?_eq_some h, ?_⟩
  have := List.find?_some h
  simpa using this

/-- With unique ids, every member is found under its own id. -/
theorem findP_eq_of_mem_nodup {ps : List Player} {p : Player}
    (hnd : (ps.map (fun q => q.id)).Nodup) (hp : p ∈ ps) :
    findP ps p.id = some p := by
  induction ps with
  | nil => cases hp
  | cons q rest ih =>
    rcases List.mem_cons.mp hp with rfl | hrest
    · exact findP_cons_eq rfl
    · have hne : ¬q.id = p.id := by
        intro hc
        have : p.id ∈ rest.map (fun r => r.id) :=
          List.mem_map_of_mem (fun r => r.id) hrest
        rw [List.map_cons] at hnd
        exact (List.nodup_cons.mp hnd).1 (hc ▸ this)
      rw [findP_cons_ne hne]
      exact ih (by rw [List.map_cons] at hnd; exact (List.nodup_cons.mp hnd).2) hrest

/-- Id-preserving in-place updates do not change the id sequence. -/
theorem updateP_map_id (ps : List Player) (pid : ℕ) (f : Player → Player)
    (hf : ∀ q, (f q).id = q.id) :
    (updateP ps pid f).map (fun p => p.id) = ps.map (fun p => p.id) := by
  unfold updateP
  rw [List.map_map]
  apply List.map_congr_left
  intro q hq
  by_cases h : q.id = pid
  · simp [h, hf q]
  · simp [h]

/-- Membership in an updated roster comes from the old roster. -/
theorem mem_updateP {ps : List Player} {pid : ℕ} {f : Player → Player} {q : Player}
    (hq : q ∈ updateP ps pid f) :
    q ∈ ps ∨ ∃ p, p ∈ ps ∧ p.id = pid ∧ q = f p := by
  unfold updateP at hq
  rcases List.mem_map.mp hq with ⟨p, hp, hpq⟩
  by_cases h : p.id = pid
  · right
    exact ⟨p, hp, h, by rw [← hpq, if_pos h]⟩
  · left
    rw [← hpq, if_neg h]
    exact hp

/-- In-place updates preserve the roster invariant provided the updated
entries do. -/
theorem rosterInv_updateP (ps : List Player) (pid : ℕ) (f : Player → Player)
    (hinv : RosterInv ps) (hf_id : ∀ q, (f q).id = q.id)
    (hf_dn : ∀ q, q ∈ ps → q.id = pid → (f q).isAlive = false → (f q).health ≤ 0) :
    RosterInv (updateP ps pid f) := by
  constructor
  · rw [updateP_map_id ps pid f hf_id]
    exact hinv.1
  · intro q hq hdead
    rcases mem_updateP hq with hold | ⟨p, hp, hpid, rfl⟩
    · exact hinv.2 q hold hdead
    · exact hf_dn p hp hpid hdead

/-- Appending a fresh, alive player preserves the roster invariant. -/
theorem rosterInv_append_fresh {ps : List Player} {p : Player}
    (hinv : RosterInv ps) (hfresh : p.id ∉ ps.map (fun q => q.id))
    (halive : p.isAlive = true) : RosterInv (ps ++ [p]) := by
  constructor
  · rw [List.map_append]
    simp only [List.map_cons, List.map_nil]
    rw [List.nodup_append]
    exact ⟨hinv.1, List.nodup_singleton _, by simpa using fun hc => hfresh hc⟩
  · intro q hq hdead
    rcases List.mem_append.mp hq with h1 | h2
    · exact hinv.2 q h1 hdead
    · have hqp : q = p := by simpa using h2
      rw [hqp, halive] at hdead
      exact absurd hdead (by decide)

/-- Deleting a player preserves the roster invariant. -/
theorem rosterInv_removeP {ps : List Player} (pid : ℕ) (hinv : RosterInv ps) :
    RosterInv (removeP ps pid) := by
  constructor
  · exact hinv.1.sublist (List.Sublist.map (fun p => p.id) (List.filter_sublist ps))
  · intro q hq hdead
    exact hinv.2 q (List.mem_of_mem_filter hq) hdead

/-- `part_000` `playerDied` preserves the roster invariant when the
dying player's health is already non-positive. -/
theorem Srv0.playerDied_inv (s : ServerState) (pid : ℕ) (k : Source)
    (hinv : RosterInv s.players)
    (hdying : ∀ p, findP s.players pid = some p → p.health ≤ 0) :
    RosterInv (Srv0.playerDied s pid k).1.players := by
  have hinv1 : RosterInv (updateP s.players pid (fun q => { q with isAlive := false })) := by
    apply rosterInv_updateP s.players pid (fun q => { q with isAlive := false }) hinv
      (fun q => rfl)
    intro q hq hqid _
    exact hdying q (by rw [← hqid]; exact findP_eq_of_mem_nodup hinv.1 hq)
  unfold Srv0.playerDied Srv0.endGame
  dsimp only
  repeat' split
  all_goals dsimp only
  all_goals first
    | exact hinv1
    | (apply rosterInv_updateP _ _ (fun q => { q with score := incScore q.score }) hinv1
        (fun q => rfl)
       intro q hq _ hdead
       exact hinv1.2 q hq hdead)

/-- `part_000` `applyDamage` preserves the roster invariant when the
damaged player (if any) is alive. -/
theorem Srv0.applyDamage_inv (s : ServerState) (pid : ℕ) (amount : ℚ) (src : Source)
    (hinv : RosterInv s.players)
    (halive : ∀ p, findP s.players pid = some p → p.isAlive = true) :
    RosterInv (Srv0.applyDamage s pid amount src).1.players := by
  unfold Srv0.applyDamage
  cases hfind : findP s.players pid with
  | none => exact hinv
  | some p =>
    dsimp only
    have hpalive := halive p hfind
    have hinv1 : RosterInv (updateP s.players pid
        (fun q => { q with health := q.health - amount })) := by
      apply rosterInv_updateP s.players pid (fun q => { q with health := q.health - amount })
        hinv (fun q => rfl)
      intro q hq hqid hdead
      have hq' : findP s.players pid = some q := by
        rw [← hqid]
        exact findP_eq_of_mem_nodup hinv.1 hq
      rw [hfind] at hq'
      injection hq' with hpq
      rw [← hpq, hpalive] at hdead
      exact absurd hdead (by decide)
    split
    · rename_i hcond
      apply Srv0.playerDied_inv _ pid src hinv1
      intro q hq
      have hself : findP (updateP s.players pid
          (fun q => { q with health := q.health - amount })) pid =
          some { p with health := p.health - amount } :=
        findP_updateP_self s.players pid (fun q => { q with health := q.health - amount })
          (fun q => rfl) p hfind
      rw [hself] at hq
      injection hq with hqe
      rw [← hqe]
      exact hcond.1
    · exact hinv1

/-- `part_000` `handleAttack` preserves the roster invariant. -/
theorem Srv0.handleAttack_inv (s : ServerState) (attackerId : ℕ) (projectile : Bool)
    (origin direction : Vec3) (targetId : Option ℕ) (hinv : RosterInv s.players) :
    RosterInv (Srv0.handleAttack s attackerId projectile origin direction targetId).1.players := by
  unfold Srv0.handleAttack
  cases hfa : findP s.players attackerId with
  | none => exact hinv
  | some attacker =>
    dsimp only
    split
    · exact hinv
    · split
      · exact hinv
      · cases targetId with
        | none => exact hinv
        | some tid =>
          dsimp only
          cases hft : findP s.players tid with
          | none => exact hinv
          | some target =>
            dsimp only
            split
            · rename_i htal
              apply Srv0.applyDamage_inv s tid _ _ hinv
              intro q hq
              rw [hft] at hq
              injection hq with hqe
              rw [← hqe]
              exact htal
            · exact hinv

/-- `part_000` `handleProjectileHit` preserves the roster invariant. -/
theorem Srv0.handleProjectileHit_inv (s : ServerState) (attackerId : ℕ)
    (targetId : Option ℕ) (damage : ℚ) (hinv : RosterInv s.players) :
    RosterInv (Srv0.handleProjectileHit s attackerId targetId damage).1.players := by
  unfold Srv0.handleProjectileHit
  cases hfa : findP s.players attackerId with
  | none => exact hinv
  | some attacker =>
    dsimp only
    cases targetId with
    | none => exact hinv
    | some tid =>
      dsimp only
      split
      · exact hinv
      · cases hft : findP s.players tid with
        | none => exact hinv
        | some target =>
          dsimp only
          split
          · rename_i htal
            apply Srv0.applyDamage_inv s tid _ _ hinv
            intro q hq
            rw [hft] at hq
            injection hq with hqe
            rw [← hqe]
            exact htal
          · exact hinv

/-- Every reachable state of the `part_000` server satisfies the roster
invariant: unique ids, and dead players have non-positive health. -/
theorem srv0_reachable_rosterInv (s : ServerState) (h : Srv0.Reachable s) :
    RosterInv s.players := by
  induction h with
  | start => exact ⟨List.nodup_nil, fun p hp => absurd hp (List.not_mem_nil p)⟩
  | connectStep s' pid spawn hr hfresh ih =>
    unfold Srv0.connect
    dsimp only
    rw [setP_fresh _ _ hfresh]
    exact rosterInv_append_fresh ih hfresh rfl
  | messageStep s' pid m hr ih =>
    cases m with
    | playerUpdate pos rot =>
      unfold Srv0.handleMessage
      cases hf : findP s'.players pid with
      | none => exact ih
      | some p =>
        dsimp only
        split
        · apply rosterInv_updateP s'.players pid
            (fun q => { q with position := pos, rotation := rot }) ih (fun q => rfl)
          intro q hq _ hdead
          exact ih.2 q hq hdead
        · exact ih
    | respawn newPos =>
      unfold Srv0.handleMessage
      cases hf : findP s'.players pid with
      | none => exact ih
      | some p =>
        dsimp only
        split
        · apply rosterInv_updateP s'.players pid
            (fun q => { q with isAlive := true, health := 100, position := newPos, weapon := 0 })
            ih (fun q => rfl)
          intro q hq _ hdead
          exact Bool.noConfusion hdead
        · exact ih
    | attack projectile origin direction targetId =>
      exact Srv0.handleAttack_inv s' pid projectile origin direction targetId ih
    | projectileHit targetId damage =>
      exact Srv0.handleProjectileHit_inv s' pid targetId damage ih
    | requestMapData => exact ih
    | ping => exact ih
  | closeStep s' pid hr ih =>
    unfold Srv0.close
    cases hf : findP s'.players pid with
    | none => exact ih
    | some p =>
      dsimp only
      split
      · exact rosterInv_removeP pid ih
      · exact rosterInv_removeP pid ih

/-- Claim C1 (amended): in every reachable state of the `part_000`
server, a player whose `isAlive` flag is false has health ≤ 0 — but not
necessarily 0 — in the roster (and hence in the connect-time snapshot,
which copies roster values verbatim); and the `playerDamaged` broadcast
produced by `applyDamage` carries the raw post-subtraction health, which
is not clamped and may be negative. -/
theorem c1_dead_nonpositive_and_raw_broadcast (s : ServerState) (h : Srv0.Reachable s) :
    (∀ p ∈ s.players, p.isAlive = false → p.health ≤ 0) ∧
    (∀ (pid : ℕ) (amount : ℚ) (src : Source) (p : Player),
      findP s.players pid = some p →
      (Srv0.applyDamage s pid amount src).2.head? =
        some ⟨Dest.all, Msg.playerDamaged pid (p.health - amount) src⟩) := by
  refine ⟨(srv0_reachable_rosterInv s h).2, ?_⟩
  intro pid amount src p hfind
  unfold Srv0.applyDamage
  rw [hfind]
  dsimp only
  split
  · rfl
  · rfl

/-- Claim C1 witness: in the reachable post-kill state, the dead
player 2 sits in the roster with health −20 ≤ 0, and a further
`applyDamage` of 5 from the zone would broadcast the raw health
−20 − 5. -/
theorem c1_dead_nonpositive_witness :
    ({ id := 2, position := spawn0, rotation := 0, health := -20, weapon := 0,
       score := none, isAlive := false } : Player) ∈ c1thirdHit.1.players ∧
    ((-20 : ℚ) ≤ 0) ∧
    (Srv0.applyDamage c1thirdHit.1 2 5 Source.zone).2.head? =
      some ⟨Dest.all, Msg.playerDamaged 2 ((-20 : ℚ) - 5) Source.zone⟩ := by
  have r1 : Srv0.Reachable (Srv0.connect initState 1 spawn0).1 :=
    Srv0.Reachable.connectStep initState 1 spawn0 Srv0.Reachable.start (by decide)
  have r2 : Srv0.Reachable c1afterConnects :=
    Srv0.Reachable.connectStep (Srv0.connect initState 1 spawn0).1 2 spawn0 r1 (by decide)
  have r3 : Srv0.Reachable c1afterHit1 :=
    Srv0.Reachable.messageStep c1afterConnects 1 c1hitMsg r2
  have r4 : Srv0.Reachable c1afterHit2 :=
    Srv0.Reachable.messageStep c1afterHit1 1 c1hitMsg r3
  have r5 : Srv0.Reachable c1thirdHit.1 :=
    Srv0.Reachable.messageStep c1afterHit2 1 c1hitMsg r4
  have h := c1_dead_nonpositive_and_raw_broadcast c1thirdHit.1 r5
  refine ⟨by decide, ?_, h.2 2 5 Source.zone
    { id := 2, position := spawn0, rotation := 0, health := -20, weapon := 0,
      score := none, isAlive := false } (by decide)⟩
  exact h.1
    { id := 2, position := spawn0, rotation := 0, health := -20, weapon := 0,
      score := none, isAlive := false } (by decide) rfl

/-!
## Zone-tick characterisation lemmas (`part_001`)
-/

/-- Zone damage updates the target's entry: same id, health reduced by
the damage amount (and possibly a cleared alive flag). -/
theorem Srv1.applyDamage_zone_entry (s : ServerState) (pid : ℕ) (p : Player)
    (hfind : findP s.players pid = some p) :
    ∃ q, findP (Srv1.applyDamage s pid 5 Source.zone).1.players pid = some q ∧
      q.health = p.health - 5 := by
  unfold Srv1.applyDamage
  rw [hfind]
  dsimp only
  have hs1 : findP (updateP s.players pid (fun q => { q with health := q.health - 5 })) pid =
      some { p with health := p.health - 5 } :=
    findP_updateP_self s.players pid (fun q => { q with health := q.health - 5 })
      (fun q => rfl) p hfind
  split
  · unfold Srv1.playerDied Srv1.endGame
    dsimp only
    have hs2 : findP (updateP (updateP s.players pid (fun q => { q with health := q.health - 5 }))
        pid (fun q => { q with isAlive := false })) pid =
        some { p with health := p.health - 5, isAlive := false } :=
      findP_updateP_self _ pid (fun q => { q with isAlive := false })
        (fun q => rfl) _ hs1
    repeat' split
    all_goals exact ⟨{ p with health := p.health - 5, isAlive := false }, hs2, rfl⟩
  · exact ⟨{ p with health := p.health - 5 }, hs1, rfl⟩

/-- Zone damage leaves every other player's entry untouched. -/
theorem Srv1.applyDamage_zone_frame (s : ServerState) (pid : ℕ) (amount : ℚ) (j : ℕ)
    (hne : j ≠ pid) :
    findP (Srv1.applyDamage s pid amount Source.zone).1.players j = findP s.players j := by
  unfold Srv1.applyDamage
  cases hfind : findP s.players pid with
  | none => rfl
  | some p =>
    dsimp only
    have h1 := findP_updateP_ne s.players pid
      (fun q => { q with health := q.health - amount }) (fun q => rfl) j hne
    split
    · unfold Srv1.playerDied Srv1.endGame
      dsimp only
      have h2 := findP_updateP_ne
        (updateP s.players pid (fun q => { q with health := q.health - amount })) pid
        (fun q => { q with isAlive := false }) (fun q => rfl) j hne
      repeat' split
      all_goals dsimp only
      all_goals rw [h2, h1]
    · exact h1

/-- Zone damage does not change the area size. -/
theorem Srv1.applyDamage_zone_size (s : ServerState) (pid : ℕ) (amount : ℚ) (src : Source) :
    (Srv1.applyDamage s pid amount src).1.currentAreaSize = s.currentAreaSize := by
  unfold Srv1.applyDamage Srv1.playerDied Srv1.endGame
  dsimp only
  repeat' split
  all_goals rfl

/-- The first broadcast of a zone `applyDamage` is the raw-health
`playerDamaged` event. -/
theorem Srv1.applyDamage_zone_head (s : ServerState) (pid : ℕ) (p : Player)
    (hfind : findP s.players pid = some p) :
    (⟨Dest.all, Msg.playerDamaged pid (p.health - 5) Source.zone⟩ : Out) ∈
      (Srv1.applyDamage s pid 5 Source.zone).2 := by
  unfold Srv1.applyDamage
  rw [hfind]
  dsimp only
  split
  · exact List.mem_append_left _ (List.mem_singleton_self _)
  · exact List.mem_singleton_self _

/-- Winner broadcasts go to all sockets. -/
theorem determineWinner_dests (s : ServerState) :
    ∀ o ∈ determineWinner s, o.dest = Dest.all := by
  unfold determineWinner
  split
  all_goals intro o ho
  all_goals rw [List.mem_singleton.mp ho]

/-- Every broadcast of an `applyDamage` chain goes to all sockets. -/
theorem Srv1.applyDamage_dests (s : ServerState) (pid : ℕ) (amount : ℚ) (src : Source) :
    ∀ o ∈ (Srv1.applyDamage s pid amount src).2, o.dest = Dest.all := by
  unfold Srv1.applyDamage Srv1.playerDied Srv1.endGame
  dsimp only
  repeat' split
  all_goals intro o ho
  all_goals dsimp only at ho
  all_goals simp only [List.mem_append, List.mem_singleton, List.mem_cons,
    List.not_mem_nil, or_false, false_or, List.nil_append] at ho
  all_goals try casesm* _ ∨ _
  all_goals first
    | exact determineWinner_dests _ o (by assumption)
    | (rename_i h
       subst h
       rfl)
    | (subst ho
       rfl)

/-- A zone-loop step on an alive player outside half the current size:
health drops by 5, the raw-health `playerDamaged` broadcast is emitted,
and a `zoneDamage` message is sent to that player. -/
theorem Srv1.zoneStep_outside (s : ServerState) (pid : ℕ) (p : Player)
    (hfind : findP s.players pid = some p) (halive : p.isAlive = true)
    (hout : distGtHalf p.position.x p.position.z s.currentAreaSize = true) :
    (∃ q, findP (Srv1.zoneStep s pid).1.players pid = some q ∧ q.health = p.health - 5) ∧
    (⟨Dest.all, Msg.playerDamaged pid (p.health - 5) Source.zone⟩ : Out) ∈
      (Srv1.zoneStep s pid).2 ∧
    (⟨Dest.to pid, Msg.zoneDamage 5⟩ : Out) ∈ (Srv1.zoneStep s pid).2 := by
  unfold Srv1.zoneStep
  rw [hfind]
  dsimp only
  rw [if_pos halive, if_pos hout]
  refine ⟨Srv1.applyDamage_zone_entry s pid p hfind, ?_, ?_⟩
  · exact List.mem_append_left _ (Srv1.applyDamage_zone_head s pid p hfind)
  · exact List.mem_append_right _ (List.mem_singleton_self _)

/-- A zone-loop step on a dead player, or an alive one inside half the
current size, does nothing. -/
theorem Srv1.zoneStep_noop (s : ServerState) (pid : ℕ) (p : Player)
    (hfind : findP s.players pid = some p)
    (hno : p.isAlive = false ∨
      distGtHalf p.position.x p.position.z s.currentAreaSize = false) :
    Srv1.zoneStep s pid = (s, []) := by
  unfold Srv1.zoneStep
  rw [hfind]
  dsimp only
  by_cases hal : p.isAlive = true
  · rw [if_pos hal]
    rcases hno with hdead | hin
    · rw [hal] at hdead
      exact absurd hdead (by decide)
    · simp [hin]
  · rw [if_neg hal]

/-- A zone-loop step leaves every other player's entry untouched. -/
theorem Srv1.zoneStep_frame (s : ServerState) (pid j : ℕ) (hne : j ≠ pid) :
    findP (Srv1.zoneStep s pid).1.players j = findP s.players j := by
  unfold Srv1.zoneStep
  cases hfind : findP s.players pid with
  | none => rfl
  | some p =>
    dsimp only
    split
    · split
      · exact Srv1.applyDamage_zone_frame s pid 5 j hne
      · rfl
    · rfl

/-- A zone-loop step does not change the area size. -/
theorem Srv1.zoneStep_size (s : ServerState) (pid : ℕ) :
    (Srv1.zoneStep s pid).1.currentAreaSize = s.currentAreaSize := by
  unfold Srv1.zoneStep
  cases hfind : findP s.players pid with
  | none => rfl
  | some p =>
    dsimp only
    split
    · split
      · exact Srv1.applyDamage_zone_size s pid 5 Source.zone
      · rfl
    · rfl

/-- The only directed (`socket.send`) message a zone-loop step emits
goes to the processed player. -/
theorem Srv1.zoneStep_dest_to (s : ServerState) (pid : ℕ) :
    ∀ o ∈ (Srv1.zoneStep s pid).2, ∀ j, o.dest = Dest.to j → j = pid := by
  unfold Srv1.zoneStep
  cases hfind : findP s.players pid with
  | none => intro o ho; exact absurd ho (List.not_mem_nil o)
  | some p =>
    dsimp only
    split
    · split
      · intro o ho j hdest
        rcases List.mem_append.mp ho with h | h
        · rw [Srv1.applyDamage_dests s pid 5 Source.zone o h] at hdest
          exact Dest.noConfusion hdest
        · rw [List.mem_singleton.mp h] at hdest
          injection hdest with h'
          exact h'.symm
      · intro o ho; exact absurd ho (List.not_mem_nil o)
    · intro o ho; exact absurd ho (List.not_mem_nil o)

/-- The zone loop leaves unprocessed players' entries and the area size
untouched. -/
theorem Srv1.zoneLoop_frame (ids : List ℕ) (s : ServerState) (j : ℕ) (hj : j ∉ ids) :
    findP (Srv1.zoneLoop s ids).1.players j = findP s.players j ∧
    (Srv1.zoneLoop s ids).1.currentAreaSize = s.currentAreaSize := by
  induction ids generalizing s with
  | nil => exact ⟨rfl, rfl⟩
  | cons i rest ih =>
    have hji : j ≠ i := fun hc => hj (hc ▸ List.mem_cons_self i rest)
    have hrest := ih (Srv1.zoneStep s i).1 (fun hc => hj (List.mem_cons_of_mem i hc))
    simp only [Srv1.zoneLoop]
    exact ⟨hrest.1.trans (Srv1.zoneStep_frame s i j hji),
           hrest.2.trans (Srv1.zoneStep_size s i)⟩

/-- Every directed message the zone loop emits goes to a processed
player. -/
theorem Srv1.zoneLoop_dest_to (ids : List ℕ) (s : ServerState) :
    ∀ o ∈ (Srv1.zoneLoop s ids).2, ∀ j, o.dest = Dest.to j → j ∈ ids := by
  induction ids generalizing s with
  | nil => intro o ho; exact absurd ho (List.not_mem_nil o)
  | cons i rest ih =>
    intro o ho j hdest
    simp only [Srv1.zoneLoop] at ho
    rcases List.mem_append.mp ho with h | h
    · rw [Srv1.zoneStep_dest_to s i o h j hdest]
      exact List.mem_cons_self i rest
    · exact List.mem_cons_of_mem i (ih (Srv1.zoneStep s i).1 o h j hdest)

/-- Per-player characterisation of the zone loop: a living player
strictly outside *half* the current size takes exactly 5 zone damage and
receives a `zoneDamage` message; a living player within half the size is
completely untouched and receives none. -/
theorem Srv1.zoneLoop_spec (p : Player) (halive : p.isAlive = true) :
    ∀ ids : List ℕ, ids.Nodup → p.id ∈ ids →
    ∀ s : ServerState, findP s.players p.id = some p →
    (distGtHalf p.position.x p.position.z s.currentAreaSize = true →
      (∃ q, findP (Srv1.zoneLoop s ids).1.players p.id = some q ∧
        q.health = p.health - 5) ∧
      (⟨Dest.all, Msg.playerDamaged p.id (p.health - 5) Source.zone⟩ : Out) ∈
        (Srv1.zoneLoop s ids).2 ∧
      (⟨Dest.to p.id, Msg.zoneDamage 5⟩ : Out) ∈ (Srv1.zoneLoop s ids).2) ∧
    (distGtHalf p.position.x p.position.z s.currentAreaSize = false →
      findP (Srv1.zoneLoop s ids).1.players p.id = some p ∧
      (⟨Dest.to p.id, Msg.zoneDamage 5⟩ : Out) ∉ (Srv1.zoneLoop s ids).2) := by
  intro ids
  induction ids with
  | nil => intro _ hmem; cases hmem
  | cons i rest ih =>
    intro hnd hmem s hfind
    rcases List.mem_cons.mp hmem with heq | hrest
    · subst heq
      have hni : p.id ∉ rest := (List.nodup_cons.mp hnd).1
      constructor
      · intro hout
        obtain ⟨⟨q, hq, hqh⟩, hdmg, hzone⟩ :=
          Srv1.zoneStep_outside s p.id p hfind halive hout
        simp only [Srv1.zoneLoop]
        have hframe := Srv1.zoneLoop_frame rest (Srv1.zoneStep s p.id).1 p.id hni
        exact ⟨⟨q, hframe.1.trans hq, hqh⟩,
               List.mem_append_left _ hdmg,
               List.mem_append_left _ hzone⟩
      · intro hin
        have hnoop := Srv1.zoneStep_noop s p.id p hfind (Or.inr hin)
        simp only [Srv1.zoneLoop, hnoop]
        have hframe := Srv1.zoneLoop_frame rest s p.id hni
        refine ⟨hframe.1.trans hfind, ?_⟩
        intro hmem'
        exact hni (Srv1.zoneLoop_dest_to rest s _ (by simpa using hmem') p.id rfl)
    · have hii : i ∉ rest := (List.nodup_cons.mp hnd).1
      have hne : p.id ≠ i := fun hc => hii (hc ▸ hrest)
      have hfind' : findP (Srv1.zoneStep s i).1.players p.id = some p :=
        (Srv1.zoneStep_frame s i p.id hne).trans hfind
      have ihr := ih (List.nodup_cons.mp hnd).2 hrest (Srv1.zoneStep s i).1 hfind'
      rw [Srv1.zoneStep_size s i] at ihr
      simp only [Srv1.zoneLoop]
      constructor
      · intro hout
        obtain ⟨hq, hdmg, hzone⟩ := ihr.1 hout
        exact ⟨hq, List.mem_append_right _ hdmg, List.mem_append_right _ hzone⟩
      · intro hin
        obtain ⟨hq, hnz⟩ := ihr.2 hin
        refine ⟨hq, ?_⟩
        intro hmem'
        rcases List.mem_append.mp hmem' with h | h
        · exact hne (Srv1.zoneStep_dest_to s i _ h p.id rfl)
        · exact hnz h

/-- Claim C6 (amended): on a shrink tick while a round is running, the
area size is multiplied by 0.9 and the new size is broadcast
(`areaShrank`); then every alive player whose planar Euclidean distance
from the center exceeds *half* the new broadcast size receives exactly 5
zone damage (a raw-health `playerDamaged` broadcast with source `'zone'`
and a `zoneDamage` message to that player), and every alive player at
distance at most half the new size is untouched and receives no
`zoneDamage` message. -/
theorem c6_zone_tick_half_size (s : ServerState)
    (hrun : s.gameInProgress = true)
    (hnd : (s.players.map (fun q => q.id)).Nodup) :
    (⟨Dest.all, Msg.areaShrank (s.currentAreaSize * (9 / 10))⟩ : Out) ∈ (Srv1.tick s).2 ∧
    ∀ p ∈ s.players, p.isAlive = true →
      (distGtHalf p.position.x p.position.z (s.currentAreaSize * (9 / 10)) = true →
        (∃ q, findP (Srv1.tick s).1.players p.id = some q ∧ q.health = p.health - 5) ∧
        (⟨Dest.all, Msg.playerDamaged p.id (p.health - 5) Source.zone⟩ : Out) ∈
          (Srv1.tick s).2 ∧
        (⟨Dest.to p.id, Msg.zoneDamage 5⟩ : Out) ∈ (Srv1.tick s).2) ∧
      (distGtHalf p.position.x p.position.z (s.currentAreaSize * (9 / 10)) = false →
        findP (Srv1.tick s).1.players p.id = some p ∧
        (⟨Dest.to p.id, Msg.zoneDamage 5⟩ : Out) ∉ (Srv1.tick s).2) := by
  have hne2 : ¬s.gameInProgress = false := by simp [hrun]
  unfold Srv1.tick
  rw [if_neg hne2]
  dsimp only
  split
  · refine ⟨List.mem_append_left _ (List.mem_append_left _
      (List.mem_append_left _ (List.mem_singleton_self _))), ?_⟩
    intro p hp hal
    have hspec := Srv1.zoneLoop_spec p hal (s.players.map (fun q => q.id))
      hnd (List.mem_map_of_mem (fun q => q.id) hp)
      { s with currentAreaSize := s.currentAreaSize * (9 / 10) }
      (findP_eq_of_mem_nodup hnd hp)
    constructor
    · intro hout
      obtain ⟨hq, hdmg, hzone⟩ := hspec.1 hout
      exact ⟨hq,
        List.mem_append_left _ (List.mem_append_left _ (List.mem_append_right _ hdmg)),
        List.mem_append_left _ (List.mem_append_left _ (List.mem_append_right _ hzone))⟩
    · intro hin
      obtain ⟨hq, hnz⟩ := hspec.2 hin
      refine ⟨hq, ?_⟩
      intro hmem'
      rcases List.mem_append.mp hmem' with h | h
      · rcases List.mem_append.mp h with h' | h'
        · rcases List.mem_append.mp h' with h'' | h''
          · exact absurd (List.mem_singleton.mp h'') (by simp)
          · exact hnz h''
        · exact Dest.noConfusion (determineWinner_dests _ _ h')
      · exact absurd (List.mem_singleton.mp h) (by simp)
  · refine ⟨List.mem_append_left _ (List.mem_singleton_self _), ?_⟩
    intro p hp hal
    have hspec := Srv1.zoneLoop_spec p hal (s.players.map (fun q => q.id))
      hnd (List.mem_map_of_mem (fun q => q.id) hp)
      { s with currentAreaSize := s.currentAreaSize * (9 / 10) }
      (findP_eq_of_mem_nodup hnd hp)
    constructor
    · intro hout
      obtain ⟨hq, hdmg, hzone⟩ := hspec.1 hout
      exact ⟨hq, List.mem_append_right _ hdmg, List.mem_append_right _ hzone⟩
    · intro hin
      obtain ⟨hq, hnz⟩ := hspec.2 hin
      refine ⟨hq, ?_⟩
      intro hmem'
      rcases List.mem_append.mp hmem' with h | h
      · exact absurd (List.mem_singleton.mp h) (by simp)
      · exact hnz h

/-- Claim C6 witness: in `c6state` the alive player 1 stands at planar
distance 50 — outside half the new size 90 — and the tick reduces its
health to 95 and sends it a `zoneDamage` message. -/
theorem c6_zone_tick_half_size_witness :
    ((45 : ℚ) ^ 2 < 50 ^ 2 + 0 ^ 2) ∧
    (∃ q, findP (Srv1.tick c6state).1.players 1 = some q ∧ q.health = (100 : ℚ) - 5) ∧
    (⟨Dest.to 1, Msg.zoneDamage 5⟩ : Out) ∈ (Srv1.tick c6state).2 := by
  have h := c6_zone_tick_half_size c6state rfl (by decide)
  have hp := h.2
    { id := 1, position := ⟨50, 1 / 2, 0⟩, rotation := 0, health := 100,
      weapon := 0, score := some 0, isAlive := true } (by decide) rfl
  obtain ⟨hq, hdmg, hzone⟩ := hp.1 (by decide)
  exact ⟨by decide, hq, hzone⟩
